import Mathlib

/-! # TLSSLStats: the SSL/TLS event recorder of proxygen

A shallow embedding of `proxygen/lib/ssl/ThreadLocalSSLStats.cpp`.  The class
`TLSSLStats` owns two histograms and thirty-four time series; every recorder
method is a short sequence of `add` calls on those members.  The members are
indexed by their source names, each recorder is embedded as the sequence of
`add` calls its body makes, and running that sequence on a state gives the
state after the method returns.
-/

namespace Proxygen

/-! ## Metric storage -/

/-- The fb303 export types named by the constructor of `TLSSLStats`. -/
inductive ExportType
  | SUM
  | AVG
  | RATE
  | PERCENT
  deriving DecidableEq, Repr

/-- Modelled from the spec: the time series type behind the counter members is
declared in a header that is not part of the source file.  It follows the
per-kind update rules of the metric storage: a counter keeps a running sum
(`sum += v`, negative `v` accepted), a percentage series keeps `hits += v` and
`total += 1`.  One series carries both numbers: `sum` is the counter value and
the hit sum, `count` is the number of samples (the total). -/
structure TLTimeseries where
  name : String
  exportTypes : List ExportType
  sum : Int
  count : Nat
  deriving DecidableEq, Repr

/-- Modelled from the spec: a freshly constructed series has no samples. -/
def TLTimeseries.create (name : String) (exportTypes : List ExportType) : TLTimeseries :=
  { name := name, exportTypes := exportTypes, sum := 0, count := 0 }

/-- Modelled from the spec: `add(v)` does `sum += v` and counts one sample. -/
def TLTimeseries.add (t : TLTimeseries) (v : Int) : TLTimeseries :=
  { t with sum := t.sum + v, count := t.count + 1 }

/-- Adds one to the bucket at index `i`; an index past the end changes nothing. -/
def bumpBucket : List Nat → Nat → List Nat
  | [], _ => []
  | b :: bs, 0 => (b + 1) :: bs
  | b :: bs, i + 1 => b :: bumpBucket bs i

/-- Modelled from the spec: the histogram type is declared in a header that is
not part of the source file.  It has equal-width buckets over `[min, max)`,
an underflow and an overflow count, and a running sum and count for the
average. -/
structure TLHistogram where
  name : String
  bucketWidth : Int
  min : Int
  max : Int
  exportTypes : List ExportType
  percentiles : List Nat
  buckets : List Nat
  underflow : Nat
  overflow : Nat
  sum : Int
  count : Nat
  deriving DecidableEq, Repr

/-- Modelled from the spec: a freshly constructed histogram has one empty
bucket per `bucketWidth` step of `[min, max)` and no samples. -/
def TLHistogram.create (name : String) (bucketWidth min max : Int)
    (exportTypes : List ExportType) (percentiles : List Nat) : TLHistogram :=
  { name := name, bucketWidth := bucketWidth, min := min, max := max,
    exportTypes := exportTypes, percentiles := percentiles,
    buckets := List.replicate ((max - min) / bucketWidth).toNat 0,
    underflow := 0, overflow := 0, sum := 0, count := 0 }

/-- Modelled from the spec: `add(v)` increments the underflow count when
`v < min`, the overflow count when `v ≥ max`, and otherwise the bucket
`floor((v - min) / bucketWidth)`; it also updates the running sum and count. -/
def TLHistogram.add (h : TLHistogram) (v : Int) : TLHistogram :=
  if v < h.min then
    { h with underflow := h.underflow + 1, sum := h.sum + v, count := h.count + 1 }
  else if v ≥ h.max then
    { h with overflow := h.overflow + 1, sum := h.sum + v, count := h.count + 1 }
  else
    { h with buckets := bumpBucket h.buckets ((v - h.min) / h.bucketWidth).toNat,
             sum := h.sum + v, count := h.count + 1 }

/-! ## The members of `TLSSLStats` -/

/-- The time series members of `TLSSLStats`, in declaration order. -/
inductive TimeseriesId
  | sslAcceptLatencyTS_
  | tlsTicketNew_
  | tlsTicketHit_
  | tlsTicketMiss_
  | sslSessionNew_
  | sslSessionHit_
  | sslSessionForeignHit_
  | sslSessionTotalMiss_
  | sslSessionRemove_
  | sslSessionFree_
  | sslSessionSetError_
  | sslSessionGetError_
  | sslClientRenegotiations_
  | clientCertMismatch_
  | tlsTicketInvalidRotation_
  | sslUpstreamHandshakes_
  | sslUpstreamResumes_
  | sslUpstreamErrors_
  | sslUpstreamVerifyErrors_
  | replayCacheNumRequests_
  | replayCacheNumHits_
  | replayCacheNumErrors_
  | newSSLHandshakeShed_
  | sslHandshakeErrors_
  | sslHandshakeSuccesses_
  | fizzHandshakeErrors_
  | fizzHandshakeProtocolErrors_
  | fizzHandshakeSuccesses_
  | tfoSuccess_
  | fizzPskTypeNotSupported_
  | fizzPskTypeNotAttempted_
  | fizzPskTypeRejected_
  | fizzPskTypeExternal_
  | fizzPskTypeResumption_
  deriving DecidableEq, Repr

/-- The histogram members of `TLSSLStats`. -/
inductive HistogramId
  | sslAcceptLatency_
  | replayCacheDuration_
  deriving DecidableEq, Repr

/-- The state of one `TLSSLStats` object: the value of every member. -/
structure TLSSLStats where
  ts : TimeseriesId → TLTimeseries
  hist : HistogramId → TLHistogram

/-- The constructor `TLSSLStats::TLSSLStats(prefix)`: every member gets its name
(the given prefix followed by a fixed suffix) and its export types, and holds no
samples. -/
def TLSSLStats.create (pfx : String) : TLSSLStats where
  hist
    | .sslAcceptLatency_ =>
        TLHistogram.create (pfx ++ "_ssl_accept_lat") 100 0 10000 [.AVG] [50, 95, 99]
    | .replayCacheDuration_ =>
        TLHistogram.create (pfx ++ "_replay_cache.proxygen.external.duration")
          100 0 5000 [.AVG] [50, 95, 99]
  ts
    | .sslAcceptLatencyTS_ => TLTimeseries.create (pfx ++ "_ssl_accept_lat") [.AVG]
    | .tlsTicketNew_ => TLTimeseries.create (pfx ++ "_tls_ticket_new") [.SUM]
    | .tlsTicketHit_ => TLTimeseries.create (pfx ++ "_tls_ticket_hit") [.SUM]
    | .tlsTicketMiss_ => TLTimeseries.create (pfx ++ "_tls_ticket_miss") [.SUM]
    | .sslSessionNew_ => TLTimeseries.create (pfx ++ "_ssl_sess_new") [.SUM]
    | .sslSessionHit_ => TLTimeseries.create (pfx ++ "_ssl_sess_hit") [.SUM]
    | .sslSessionForeignHit_ => TLTimeseries.create (pfx ++ "_ssl_sess_foreign_hit") [.SUM]
    | .sslSessionTotalMiss_ => TLTimeseries.create (pfx ++ "_ssl_sess_total_miss") [.SUM]
    | .sslSessionRemove_ => TLTimeseries.create (pfx ++ "_ssl_sess_remove") [.SUM]
    | .sslSessionFree_ => TLTimeseries.create (pfx ++ "_ssl_sess_free") [.SUM]
    | .sslSessionSetError_ => TLTimeseries.create (pfx ++ "_ssl_sess_error_set") [.SUM]
    | .sslSessionGetError_ => TLTimeseries.create (pfx ++ "_ssl_sess_error_get") [.SUM]
    | .sslClientRenegotiations_ =>
        TLTimeseries.create (pfx ++ "_ssl_client_renegotiations") [.SUM]
    | .clientCertMismatch_ => TLTimeseries.create (pfx ++ "_client_cert_mismatch") [.SUM]
    | .tlsTicketInvalidRotation_ =>
        TLTimeseries.create (pfx ++ "_tls_ticket_invalid_rotation") [.SUM]
    | .sslUpstreamHandshakes_ =>
        TLTimeseries.create (pfx ++ "_ssl_upstream_handshakes") [.SUM]
    | .sslUpstreamResumes_ => TLTimeseries.create (pfx ++ "_ssl_upstream_resumes") [.SUM]
    | .sslUpstreamErrors_ => TLTimeseries.create (pfx ++ "_ssl_upstream_errors") [.SUM]
    | .sslUpstreamVerifyErrors_ =>
        TLTimeseries.create (pfx ++ "_ssl_upstream_verify_errors") [.SUM]
    | .replayCacheNumRequests_ =>
        TLTimeseries.create (pfx ++ "_replay_cache.proxygen.external.num_requests")
          [.SUM, .RATE]
    | .replayCacheNumHits_ =>
        TLTimeseries.create (pfx ++ "_replay_cache.proxygen.external.num_hits")
          [.SUM, .PERCENT, .RATE]
    | .replayCacheNumErrors_ =>
        TLTimeseries.create (pfx ++ "_replay_cache.proxygen.external.num_errors")
          [.SUM, .PERCENT, .RATE]
    | .newSSLHandshakeShed_ =>
        TLTimeseries.create (pfx ++ "_ssl_handshake_shed_new") [.SUM, .RATE]
    | .sslHandshakeErrors_ =>
        TLTimeseries.create (pfx ++ "_ssl_handshake_errors") [.SUM, .PERCENT]
    | .sslHandshakeSuccesses_ =>
        TLTimeseries.create (pfx ++ "_ssl_handshake_successes") [.SUM]
    | .fizzHandshakeErrors_ =>
        TLTimeseries.create (pfx ++ "_fizz_handshake_errors") [.SUM, .PERCENT]
    | .fizzHandshakeProtocolErrors_ =>
        TLTimeseries.create (pfx ++ "_fizz_handshake_protocol_errors") [.SUM]
    | .fizzHandshakeSuccesses_ =>
        TLTimeseries.create (pfx ++ "_fizz_handshake_successes") [.SUM]
    | .tfoSuccess_ => TLTimeseries.create (pfx ++ "_tfo_success") [.SUM]
    | .fizzPskTypeNotSupported_ =>
        TLTimeseries.create (pfx ++ "_fizz_psktype_not_supported") [.SUM]
    | .fizzPskTypeNotAttempted_ =>
        TLTimeseries.create (pfx ++ "_fizz_psktype_not_attempted") [.SUM]
    | .fizzPskTypeRejected_ => TLTimeseries.create (pfx ++ "_fizz_psktype_rejected") [.SUM]
    | .fizzPskTypeExternal_ => TLTimeseries.create (pfx ++ "_fizz_psktype_external") [.SUM]
    | .fizzPskTypeResumption_ =>
        TLTimeseries.create (pfx ++ "_fizz_psktype_resumption") [.SUM]

/-! ## `add` calls -/

/-- One `member.add(value)` statement of a recorder body. -/
inductive AddCall
  | timeseries (m : TimeseriesId) (v : Int)
  | histogram (m : HistogramId) (v : Int)
  deriving DecidableEq, Repr

/-- The effect of one `add` call on the state: the named member takes the
sample, every other member is untouched. -/
def TLSSLStats.add (s : TLSSLStats) : AddCall → TLSSLStats
  | .timeseries m v => { s with ts := Function.update s.ts m ((s.ts m).add v) }
  | .histogram m v => { s with hist := Function.update s.hist m ((s.hist m).add v) }

/-- Runs the `add` calls of a recorder body in program order. -/
def TLSSLStats.perform (s : TLSSLStats) (calls : List AddCall) : TLSSLStats :=
  calls.foldl TLSSLStats.add s

/-! ## The recorder methods

For each method `recordX`, `recordXCalls` lists the `add` calls its body makes
for the given arguments, in program order, and `TLSSLStats.recordX` is the
state after the method returns. -/

/-- The values of `fizz::PskType` that `recordPskType` switches on. -/
inductive PskType
  | NotSupported
  | NotAttempted
  | Rejected
  | External
  | Resumption
  deriving DecidableEq, Repr

/-- Body of `recordSSLAcceptLatency(int64_t latency)`. -/
def recordSSLAcceptLatencyCalls (latency : Int) : List AddCall :=
  if latency ≥ 0 then
    [.histogram .sslAcceptLatency_ latency, .timeseries .sslAcceptLatencyTS_ latency]
  else []

/-- Body of `recordTLSTicket(bool ticketNew, bool ticketHit)`. -/
def recordTLSTicketCalls (ticketNew ticketHit : Bool) : List AddCall :=
  if ticketNew then [.timeseries .tlsTicketNew_ 1]
  else if ticketHit then [.timeseries .tlsTicketHit_ 1]
  else [.timeseries .tlsTicketMiss_ 1]

/-- Body of `recordSSLSession(bool sessionNew, bool sessionHit, bool foreign)`. -/
def recordSSLSessionCalls (sessionNew sessionHit foreign : Bool) : List AddCall :=
  if sessionNew then [.timeseries .sslSessionNew_ 1]
  else if sessionHit then
    [.timeseries .sslSessionHit_ (if foreign then 0 else 1),
     .timeseries .sslSessionForeignHit_ (if foreign then 1 else 0)]
  else [.timeseries .sslSessionTotalMiss_ 1]

/-- Body of `recordSSLSessionRemove()`. -/
def recordSSLSessionRemoveCalls : List AddCall :=
  [.timeseries .sslSessionRemove_ 1]

/-- Body of `recordSSLSessionFree(uint32_t freed)`. -/
def recordSSLSessionFreeCalls (freed : Nat) : List AddCall :=
  [.timeseries .sslSessionFree_ (freed : Int)]

/-- Body of `recordSSLSessionSetError(uint32_t)`; the argument is not used. -/
def recordSSLSessionSetErrorCalls (_err : Nat) : List AddCall :=
  [.timeseries .sslSessionSetError_ 1]

/-- Body of `recordSSLSessionGetError(uint32_t)`; the argument is not used. -/
def recordSSLSessionGetErrorCalls (_err : Nat) : List AddCall :=
  [.timeseries .sslSessionGetError_ 1]

/-- Body of `recordClientRenegotiation()`. -/
def recordClientRenegotiationCalls : List AddCall :=
  [.timeseries .sslClientRenegotiations_ 1]

/-- Body of `recordSSLClientCertificateMismatch()`. -/
def recordSSLClientCertificateMismatchCalls : List AddCall :=
  [.timeseries .clientCertMismatch_ 1]

/-- Body of `recordTLSTicketRotation(bool valid)`. -/
def recordTLSTicketRotationCalls (valid : Bool) : List AddCall :=
  if !valid then [.timeseries .tlsTicketInvalidRotation_ 1] else []

/-- Body of `recordSSLUpstreamConnection(bool handshake)`. -/
def recordSSLUpstreamConnectionCalls (handshake : Bool) : List AddCall :=
  if handshake then [.timeseries .sslUpstreamHandshakes_ 1]
  else [.timeseries .sslUpstreamResumes_ 1]

/-- Body of `recordSSLUpstreamConnectionError(bool verifyError)`. -/
def recordSSLUpstreamConnectionErrorCalls (verifyError : Bool) : List AddCall :=
  if verifyError then [.timeseries .sslUpstreamVerifyErrors_ 1]
  else [.timeseries .sslUpstreamErrors_ 1]

/-- Body of `recordReplayCacheRequestComplete(uint64_t duration, bool cacheHit)`. -/
def recordReplayCacheRequestCompleteCalls (duration : Nat) (cacheHit : Bool) : List AddCall :=
  [.timeseries .replayCacheNumRequests_ 1,
   .histogram .replayCacheDuration_ (duration : Int),
   .timeseries .replayCacheNumHits_ (if cacheHit then 1 else 0),
   .timeseries .replayCacheNumErrors_ 0]

/-- Body of `recordReplayCacheRequestError()`. -/
def recordReplayCacheRequestErrorCalls : List AddCall :=
  [.timeseries .replayCacheNumRequests_ 1, .timeseries .replayCacheNumErrors_ 1]

/-- Body of `recordNewSSLHandshakeShed()`. -/
def recordNewSSLHandshakeShedCalls : List AddCall :=
  [.timeseries .newSSLHandshakeShed_ 1]

/-- Body of `recordSSLHandshake(bool success)`. -/
def recordSSLHandshakeCalls (success : Bool) : List AddCall :=
  if success then
    [.timeseries .sslHandshakeSuccesses_ 1, .timeseries .sslHandshakeErrors_ 0]
  else [.timeseries .sslHandshakeErrors_ 1]

/-- Body of `recordFizzHandshake(bool success)`. -/
def recordFizzHandshakeCalls (success : Bool) : List AddCall :=
  if success then
    [.timeseries .fizzHandshakeSuccesses_ 1, .timeseries .fizzHandshakeErrors_ 0]
  else [.timeseries .fizzHandshakeErrors_ 1]

/-- Body of `recordFizzHandshakeProtocolError()`. -/
def recordFizzHandshakeProtocolErrorCalls : List AddCall :=
  [.timeseries .fizzHandshakeProtocolErrors_ 1]

/-- Body of `recordTFOSuccess()`. -/
def recordTFOSuccessCalls : List AddCall :=
  [.timeseries .tfoSuccess_ 1]

/-- Body of `recordPskType(folly::Optional<fizz::PskType> pskType)`. -/
def recordPskTypeCalls (pskType : Option PskType) : List AddCall :=
  match pskType with
  | none => []
  | some .NotSupported => [.timeseries .fizzPskTypeNotSupported_ 1]
  | some .NotAttempted => [.timeseries .fizzPskTypeNotAttempted_ 1]
  | some .Rejected => [.timeseries .fizzPskTypeRejected_ 1]
  | some .External => [.timeseries .fizzPskTypeExternal_ 1]
  | some .Resumption => [.timeseries .fizzPskTypeResumption_ 1]

/-- State after `recordSSLAcceptLatency(latency)`. -/
def TLSSLStats.recordSSLAcceptLatency (s : TLSSLStats) (latency : Int) : TLSSLStats :=
  s.perform (recordSSLAcceptLatencyCalls latency)

/-- State after `recordTLSTicket(ticketNew, ticketHit)`. -/
def TLSSLStats.recordTLSTicket (s : TLSSLStats) (ticketNew ticketHit : Bool) : TLSSLStats :=
  s.perform (recordTLSTicketCalls ticketNew ticketHit)

/-- State after `recordSSLSession(sessionNew, sessionHit, foreign)`. -/
def TLSSLStats.recordSSLSession (s : TLSSLStats) (sessionNew sessionHit foreign : Bool) :
    TLSSLStats :=
  s.perform (recordSSLSessionCalls sessionNew sessionHit foreign)

/-- State after `recordTLSTicketRotation(valid)`. -/
def TLSSLStats.recordTLSTicketRotation (s : TLSSLStats) (valid : Bool) : TLSSLStats :=
  s.perform (recordTLSTicketRotationCalls valid)

/-- State after `recordSSLUpstreamConnection(handshake)`. -/
def TLSSLStats.recordSSLUpstreamConnection (s : TLSSLStats) (handshake : Bool) : TLSSLStats :=
  s.perform (recordSSLUpstreamConnectionCalls handshake)

/-- State after `recordSSLUpstreamConnectionError(verifyError)`. -/
def TLSSLStats.recordSSLUpstreamConnectionError (s : TLSSLStats) (verifyError : Bool) :
    TLSSLStats :=
  s.perform (recordSSLUpstreamConnectionErrorCalls verifyError)

/-- State after `recordReplayCacheRequestComplete(duration, cacheHit)`. -/
def TLSSLStats.recordReplayCacheRequestComplete (s : TLSSLStats) (duration : Nat)
    (cacheHit : Bool) : TLSSLStats :=
  s.perform (recordReplayCacheRequestCompleteCalls duration cacheHit)

/-- State after `recordReplayCacheRequestError()`. -/
def TLSSLStats.recordReplayCacheRequestError (s : TLSSLStats) : TLSSLStats :=
  s.perform recordReplayCacheRequestErrorCalls

/-- State after `recordSSLHandshake(success)`. -/
def TLSSLStats.recordSSLHandshake (s : TLSSLStats) (success : Bool) : TLSSLStats :=
  s.perform (recordSSLHandshakeCalls success)

/-- State after `recordFizzHandshake(success)`. -/
def TLSSLStats.recordFizzHandshake (s : TLSSLStats) (success : Bool) : TLSSLStats :=
  s.perform (recordFizzHandshakeCalls success)

/-- State after `recordPskType(pskType)`. -/
def TLSSLStats.recordPskType (s : TLSSLStats) (pskType : Option PskType) : TLSSLStats :=
  s.perform (recordPskTypeCalls pskType)

/-- State after a sequence of `recordTLSTicket` calls, given as the pairs
`(ticketNew, ticketHit)` in call order. -/
def TLSSLStats.recordTLSTickets (s : TLSSLStats) (calls : List (Bool × Bool)) : TLSSLStats :=
  calls.foldl (fun st c => st.recordTLSTicket c.1 c.2) s

/-- The counter named after a PSK type: the one `recordPskType` is said to
increment for that type (e.g. `NotSupported` and `fizzPskTypeNotSupported_`). -/
def pskTypeCounter : PskType → TimeseriesId
  | .NotSupported => .fizzPskTypeNotSupported_
  | .NotAttempted => .fizzPskTypeNotAttempted_
  | .Rejected => .fizzPskTypeRejected_
  | .External => .fizzPskTypeExternal_
  | .Resumption => .fizzPskTypeResumption_

/-- The ticket scenario of the spec: three new tickets, two hits, one miss. -/
def ticketScenario : List (Bool × Bool) :=
  [(true, false), (true, false), (true, false), (false, true), (false, true), (false, false)]

/-- State after `recordSSLSessionRemove()`. -/
def TLSSLStats.recordSSLSessionRemove (s : TLSSLStats) : TLSSLStats :=
  s.perform recordSSLSessionRemoveCalls

/-- State after `recordSSLSessionFree(freed)`. -/
def TLSSLStats.recordSSLSessionFree (s : TLSSLStats) (freed : Nat) : TLSSLStats :=
  s.perform (recordSSLSessionFreeCalls freed)

/-! ## Sequences of recorder calls -/

/-- One call of a public recorder method of `TLSSLStats`, with its arguments. -/
inductive Event
  | recordSSLAcceptLatency (latency : Int)
  | recordTLSTicket (ticketNew ticketHit : Bool)
  | recordSSLSession (sessionNew sessionHit foreign : Bool)
  | recordSSLSessionRemove
  | recordSSLSessionFree (freed : Nat)
  | recordSSLSessionSetError (err : Nat)
  | recordSSLSessionGetError (err : Nat)
  | recordClientRenegotiation
  | recordSSLClientCertificateMismatch
  | recordTLSTicketRotation (valid : Bool)
  | recordSSLUpstreamConnection (handshake : Bool)
  | recordSSLUpstreamConnectionError (verifyError : Bool)
  | recordReplayCacheRequestComplete (duration : Nat) (cacheHit : Bool)
  | recordReplayCacheRequestError
  | recordNewSSLHandshakeShed
  | recordSSLHandshake (success : Bool)
  | recordFizzHandshake (success : Bool)
  | recordFizzHandshakeProtocolError
  | recordTFOSuccess
  | recordPskType (pskType : Option PskType)
  deriving DecidableEq, Repr

/-- The `add` calls made by one recorder call: the body of the method named by
the event, at the event's arguments. -/
def Event.calls : Event → List AddCall
  | .recordSSLAcceptLatency latency => recordSSLAcceptLatencyCalls latency
  | .recordTLSTicket ticketNew ticketHit => recordTLSTicketCalls ticketNew ticketHit
  | .recordSSLSession sessionNew sessionHit foreign =>
      recordSSLSessionCalls sessionNew sessionHit foreign
  | .recordSSLSessionRemove => recordSSLSessionRemoveCalls
  | .recordSSLSessionFree freed => recordSSLSessionFreeCalls freed
  | .recordSSLSessionSetError err => recordSSLSessionSetErrorCalls err
  | .recordSSLSessionGetError err => recordSSLSessionGetErrorCalls err
  | .recordClientRenegotiation => recordClientRenegotiationCalls
  | .recordSSLClientCertificateMismatch => recordSSLClientCertificateMismatchCalls
  | .recordTLSTicketRotation valid => recordTLSTicketRotationCalls valid
  | .recordSSLUpstreamConnection handshake => recordSSLUpstreamConnectionCalls handshake
  | .recordSSLUpstreamConnectionError verifyError =>
      recordSSLUpstreamConnectionErrorCalls verifyError
  | .recordReplayCacheRequestComplete duration cacheHit =>
      recordReplayCacheRequestCompleteCalls duration cacheHit
  | .recordReplayCacheRequestError => recordReplayCacheRequestErrorCalls
  | .recordNewSSLHandshakeShed => recordNewSSLHandshakeShedCalls
  | .recordSSLHandshake success => recordSSLHandshakeCalls success
  | .recordFizzHandshake success => recordFizzHandshakeCalls success
  | .recordFizzHandshakeProtocolError => recordFizzHandshakeProtocolErrorCalls
  | .recordTFOSuccess => recordTFOSuccessCalls
  | .recordPskType pskType => recordPskTypeCalls pskType

/-- State after one recorder call. -/
def TLSSLStats.record (s : TLSSLStats) (e : Event) : TLSSLStats :=
  s.perform e.calls

/-- State after a sequence of recorder calls, made in list order. -/
def TLSSLStats.recordAll (s : TLSSLStats) (es : List Event) : TLSSLStats :=
  es.foldl TLSSLStats.record s

/-! ## Read-time values -/

/-- Modelled from the spec: the percentage of a percentage series at read time
is `100 * hits / max(total, 1)`, as an exact rational. -/
def TLTimeseries.percentage (t : TLTimeseries) : ℚ :=
  100 * (t.sum : ℚ) / (max t.count 1 : Nat)

/-- Modelled from the spec: the average of a histogram is its running sum over
its running count, as an exact rational; an empty histogram reports zero. -/
def TLHistogram.mean (h : TLHistogram) : ℚ :=
  if h.count = 0 then 0 else (h.sum : ℚ) / (h.count : ℚ)

/-- The replay-cache scenario of the spec: complete(10, hit) then
complete(20, miss). -/
def replayScenario : List (Nat × Bool) := [(10, true), (20, false)]

/-- The recorder calls of a sequence of replay-cache completions, given as the
pairs `(duration, cacheHit)` in call order. -/
def replayCompletions (calls : List (Nat × Bool)) : List Event :=
  calls.map (fun c => Event.recordReplayCacheRequestComplete c.1 c.2)

/-- The four percentage series named by the claims. -/
def percentageSeries : List TimeseriesId :=
  [.replayCacheNumHits_, .replayCacheNumErrors_, .sslHandshakeErrors_, .fizzHandshakeErrors_]

/-- Whether the recorder call is a `recordSSLHandshake` call. -/
def Event.isSSLHandshake : Event → Bool
  | .recordSSLHandshake _ => true
  | _ => false

/-- Whether the recorder call is a `recordFizzHandshake` call. -/
def Event.isFizzHandshake : Event → Bool
  | .recordFizzHandshake _ => true
  | _ => false

/-- Whether the recorder call is a `recordReplayCacheRequestComplete` call. -/
def Event.isReplayComplete : Event → Bool
  | .recordReplayCacheRequestComplete _ _ => true
  | _ => false

/-- The latency of a `recordSSLAcceptLatency` call when it is zero or more;
nothing for a negative latency and for every other recorder call. -/
def Event.acceptedLatency : Event → Option Int
  | .recordSSLAcceptLatency latency => if 0 ≤ latency then some latency else none
  | _ => none

/-- The non-negative latencies passed to `recordSSLAcceptLatency` in a sequence
of recorder calls, in call order. -/
def acceptedLatencies (es : List Event) : List Int :=
  es.filterMap Event.acceptedLatency

/-! ## Basic facts about the metric storage -/

theorem TLTimeseries.add_sum (t : TLTimeseries) (v : Int) : (t.add v).sum = t.sum + v := rfl

theorem TLTimeseries.add_count (t : TLTimeseries) (v : Int) :
    (t.add v).count = t.count + 1 := rfl

theorem TLHistogram.hist_add_sum (h : TLHistogram) (v : Int) : (h.add v).sum = h.sum + v := by
  unfold TLHistogram.add
  split
  · rfl
  · split <;> rfl

theorem TLHistogram.hist_add_count (h : TLHistogram) (v : Int) :
    (h.add v).count = h.count + 1 := by
  unfold TLHistogram.add
  split
  · rfl
  · split <;> rfl

theorem TLSSLStats.perform_nil (s : TLSSLStats) : s.perform [] = s := rfl

theorem TLSSLStats.perform_cons (s : TLSSLStats) (c : AddCall) (cs : List AddCall) :
    s.perform (c :: cs) = (s.add c).perform cs := rfl

theorem TLSSLStats.add_timeseries_ts (s : TLSSLStats) (m m' : TimeseriesId) (v : Int) :
    (s.add (.timeseries m v)).ts m' = if m' = m then (s.ts m).add v else s.ts m' := by
  by_cases h : m' = m
  · subst h; simp [TLSSLStats.add]
  · simp [TLSSLStats.add, Function.update, h]

theorem TLSSLStats.add_timeseries_hist (s : TLSSLStats) (m : TimeseriesId) (v : Int) :
    (s.add (.timeseries m v)).hist = s.hist := rfl

theorem TLSSLStats.add_histogram_ts (s : TLSSLStats) (m : HistogramId) (v : Int) :
    (s.add (.histogram m v)).ts = s.ts := rfl

theorem TLSSLStats.add_histogram_hist (s : TLSSLStats) (m m' : HistogramId) (v : Int) :
    (s.add (.histogram m v)).hist m' = if m' = m then (s.hist m).add v else s.hist m' := by
  by_cases h : m' = m
  · subst h; simp [TLSSLStats.add]
  · simp [TLSSLStats.add, Function.update, h]

/-! ## Ticket and session outcomes -/

/-- C1: for every state and every pair (ticketNew, ticketHit), `recordTLSTicket`
adds exactly 1 to exactly one of tlsTicketNew, tlsTicketHit, tlsTicketMiss
(new when ticketNew, whatever ticketHit is; hit when not new and ticketHit;
miss when both are false) and leaves the other two counters, every other time
series and both histograms unchanged. -/
theorem recordTLSTicket_exactly_one (s : TLSSLStats) (ticketNew ticketHit : Bool) :
    ∃ target : TimeseriesId,
      target = (if ticketNew then TimeseriesId.tlsTicketNew_
                else if ticketHit then TimeseriesId.tlsTicketHit_
                else TimeseriesId.tlsTicketMiss_) ∧
      ((s.recordTLSTicket ticketNew ticketHit).ts target).sum = (s.ts target).sum + 1 ∧
      (s.recordTLSTicket ticketNew ticketHit).ts target = (s.ts target).add 1 ∧
      (∀ m, m ≠ target → (s.recordTLSTicket ticketNew ticketHit).ts m = s.ts m) ∧
      (s.recordTLSTicket ticketNew ticketHit).hist = s.hist := by
  refine ⟨_, rfl, ?_⟩
  cases ticketNew <;> cases ticketHit <;>
    simp +contextual [TLSSLStats.recordTLSTicket, recordTLSTicketCalls,
      TLSSLStats.perform_cons, TLSSLStats.perform_nil, TLSSLStats.add_timeseries_ts,
      TLSSLStats.add_timeseries_hist, TLTimeseries.add_sum]


/-- C2: for every state and every (sessionNew, sessionHit, foreign),
`recordSSLSession` raises the sum of exactly one of sslSessionNew, sslSessionHit,
sslSessionForeignHit, sslSessionTotalMiss by exactly 1 and leaves the sum of
every other series unchanged: new when sessionNew; otherwise, when sessionHit,
the local-hit counter if foreign is false and the foreign-hit counter if it is
true, the two being given the complementary samples 0/1; otherwise total-miss.
Series outside the four, and both histograms, are untouched, and the foreign
flag changes nothing unless sessionNew is false and sessionHit is true. -/
theorem recordSSLSession_exactly_one (s : TLSSLStats) (sessionNew sessionHit foreign : Bool) :
    ∃ target : TimeseriesId,
      target = (if sessionNew then TimeseriesId.sslSessionNew_
                else if sessionHit then
                  (if foreign then TimeseriesId.sslSessionForeignHit_
                   else TimeseriesId.sslSessionHit_)
                else TimeseriesId.sslSessionTotalMiss_) ∧
      ((s.recordSSLSession sessionNew sessionHit foreign).ts target).sum
        = (s.ts target).sum + 1 ∧
      (∀ m, m ≠ target →
        ((s.recordSSLSession sessionNew sessionHit foreign).ts m).sum = (s.ts m).sum) ∧
      (∀ m, m ≠ TimeseriesId.sslSessionNew_ → m ≠ TimeseriesId.sslSessionHit_ →
        m ≠ TimeseriesId.sslSessionForeignHit_ → m ≠ TimeseriesId.sslSessionTotalMiss_ →
        (s.recordSSLSession sessionNew sessionHit foreign).ts m = s.ts m) ∧
      (s.recordSSLSession sessionNew sessionHit foreign).hist = s.hist ∧
      (sessionNew = false → sessionHit = true →
        (s.recordSSLSession sessionNew sessionHit foreign).ts .sslSessionHit_
          = (s.ts .sslSessionHit_).add (if foreign then 0 else 1) ∧
        (s.recordSSLSession sessionNew sessionHit foreign).ts .sslSessionForeignHit_
          = (s.ts .sslSessionForeignHit_).add (if foreign then 1 else 0)) ∧
      (sessionNew = true ∨ sessionHit = false →
        ∀ other : Bool, s.recordSSLSession sessionNew sessionHit other
          = s.recordSSLSession sessionNew sessionHit foreign) := by
  refine ⟨_, rfl, ?_⟩
  cases sessionNew <;> cases sessionHit <;> cases foreign <;>
    simp +contextual [TLSSLStats.recordSSLSession, recordSSLSessionCalls,
      TLSSLStats.perform_cons, TLSSLStats.perform_nil, TLSSLStats.add_timeseries_ts,
      TLSSLStats.add_timeseries_hist, TLTimeseries.add_sum] <;>
    (intro m hm; split <;> simp_all [TLTimeseries.add_sum])

/-! ## Replay cache -/

/-- C3: for every state, duration and cacheHit,
`recordReplayCacheRequestComplete(duration, cacheHit)` adds 1 to the requests
counter, adds the sample `duration` to the duration histogram (count +1, sum
+duration), adds the sample 1 or 0 (1 exactly when cacheHit) to the hits series
and the sample 0 to the errors series (total +1, error sum unchanged); every
other time series and the other histogram are unchanged. -/
theorem recordReplayCacheRequestComplete_effect (s : TLSSLStats) (duration : Nat)
    (cacheHit : Bool) :
    (s.recordReplayCacheRequestComplete duration cacheHit).ts .replayCacheNumRequests_
      = (s.ts .replayCacheNumRequests_).add 1 ∧
    ((s.recordReplayCacheRequestComplete duration cacheHit).ts .replayCacheNumRequests_).sum
      = (s.ts .replayCacheNumRequests_).sum + 1 ∧
    (s.recordReplayCacheRequestComplete duration cacheHit).hist .replayCacheDuration_
      = (s.hist .replayCacheDuration_).add duration ∧
    ((s.recordReplayCacheRequestComplete duration cacheHit).hist .replayCacheDuration_).count
      = (s.hist .replayCacheDuration_).count + 1 ∧
    ((s.recordReplayCacheRequestComplete duration cacheHit).hist .replayCacheDuration_).sum
      = (s.hist .replayCacheDuration_).sum + duration ∧
    (s.recordReplayCacheRequestComplete duration cacheHit).ts .replayCacheNumHits_
      = (s.ts .replayCacheNumHits_).add (if cacheHit then 1 else 0) ∧
    (s.recordReplayCacheRequestComplete duration cacheHit).ts .replayCacheNumErrors_
      = (s.ts .replayCacheNumErrors_).add 0 ∧
    ((s.recordReplayCacheRequestComplete duration cacheHit).ts .replayCacheNumErrors_).count
      = (s.ts .replayCacheNumErrors_).count + 1 ∧
    ((s.recordReplayCacheRequestComplete duration cacheHit).ts .replayCacheNumErrors_).sum
      = (s.ts .replayCacheNumErrors_).sum ∧
    (∀ m, m ≠ TimeseriesId.replayCacheNumRequests_ → m ≠ TimeseriesId.replayCacheNumHits_ →
      m ≠ TimeseriesId.replayCacheNumErrors_ →
      (s.recordReplayCacheRequestComplete duration cacheHit).ts m = s.ts m) ∧
    (s.recordReplayCacheRequestComplete duration cacheHit).hist .sslAcceptLatency_
      = s.hist .sslAcceptLatency_ := by
  simp +contextual [TLSSLStats.recordReplayCacheRequestComplete,
    recordReplayCacheRequestCompleteCalls,
    TLSSLStats.perform_cons, TLSSLStats.perform_nil, TLSSLStats.add_timeseries_ts,
    TLSSLStats.add_timeseries_hist, TLSSLStats.add_histogram_ts,
    TLSSLStats.add_histogram_hist, TLTimeseries.add_sum, TLTimeseries.add_count,
    TLHistogram.hist_add_sum, TLHistogram.hist_add_count]

/-- C4: for every state, `recordReplayCacheRequestError` adds 1 to the requests
counter and the sample 1 to the errors series (error sum +1, total +1); the hits
series, both histograms and every other time series are unchanged. -/
theorem recordReplayCacheRequestError_effect (s : TLSSLStats) :
    s.recordReplayCacheRequestError.ts .replayCacheNumRequests_
      = (s.ts .replayCacheNumRequests_).add 1 ∧
    (s.recordReplayCacheRequestError.ts .replayCacheNumRequests_).sum
      = (s.ts .replayCacheNumRequests_).sum + 1 ∧
    s.recordReplayCacheRequestError.ts .replayCacheNumErrors_
      = (s.ts .replayCacheNumErrors_).add 1 ∧
    (s.recordReplayCacheRequestError.ts .replayCacheNumErrors_).sum
      = (s.ts .replayCacheNumErrors_).sum + 1 ∧
    (s.recordReplayCacheRequestError.ts .replayCacheNumErrors_).count
      = (s.ts .replayCacheNumErrors_).count + 1 ∧
    s.recordReplayCacheRequestError.ts .replayCacheNumHits_ = s.ts .replayCacheNumHits_ ∧
    s.recordReplayCacheRequestError.hist = s.hist ∧
    (∀ m, m ≠ TimeseriesId.replayCacheNumRequests_ → m ≠ TimeseriesId.replayCacheNumErrors_ →
      s.recordReplayCacheRequestError.ts m = s.ts m) := by
  simp +contextual [TLSSLStats.recordReplayCacheRequestError,
    recordReplayCacheRequestErrorCalls,
    TLSSLStats.perform_cons, TLSSLStats.perform_nil, TLSSLStats.add_timeseries_ts,
    TLSSLStats.add_timeseries_hist, TLTimeseries.add_sum, TLTimeseries.add_count]


/-! ## Handshakes -/

/-- C5: for every state and every success flag, `recordSSLHandshake(success)`
adds 1 to sslHandshakeSuccesses and the sample 0 to sslHandshakeErrors when
success is true, and adds the sample 1 to sslHandshakeErrors only (successes
unchanged) when it is false, and changes nothing else; `recordFizzHandshake`
does the same on fizzHandshakeSuccesses and fizzHandshakeErrors; neither
touches the metrics of the other. -/
theorem recordHandshake_effect (s : TLSSLStats) (success : Bool) :
    ((s.recordSSLHandshake success).ts .sslHandshakeSuccesses_
        = (if success then (s.ts .sslHandshakeSuccesses_).add 1
           else s.ts .sslHandshakeSuccesses_) ∧
      (s.recordSSLHandshake success).ts .sslHandshakeErrors_
        = (s.ts .sslHandshakeErrors_).add (if success then 0 else 1) ∧
      (∀ m, m ≠ TimeseriesId.sslHandshakeSuccesses_ → m ≠ TimeseriesId.sslHandshakeErrors_ →
        (s.recordSSLHandshake success).ts m = s.ts m) ∧
      (s.recordSSLHandshake success).ts .fizzHandshakeSuccesses_
        = s.ts .fizzHandshakeSuccesses_ ∧
      (s.recordSSLHandshake success).ts .fizzHandshakeErrors_ = s.ts .fizzHandshakeErrors_ ∧
      (s.recordSSLHandshake success).hist = s.hist) ∧
    ((s.recordFizzHandshake success).ts .fizzHandshakeSuccesses_
        = (if success then (s.ts .fizzHandshakeSuccesses_).add 1
           else s.ts .fizzHandshakeSuccesses_) ∧
      (s.recordFizzHandshake success).ts .fizzHandshakeErrors_
        = (s.ts .fizzHandshakeErrors_).add (if success then 0 else 1) ∧
      (∀ m, m ≠ TimeseriesId.fizzHandshakeSuccesses_ →
        m ≠ TimeseriesId.fizzHandshakeErrors_ →
        (s.recordFizzHandshake success).ts m = s.ts m) ∧
      (s.recordFizzHandshake success).ts .sslHandshakeSuccesses_
        = s.ts .sslHandshakeSuccesses_ ∧
      (s.recordFizzHandshake success).ts .sslHandshakeErrors_ = s.ts .sslHandshakeErrors_ ∧
      (s.recordFizzHandshake success).hist = s.hist) := by
  cases success <;>
    simp +contextual [TLSSLStats.recordSSLHandshake, recordSSLHandshakeCalls,
      TLSSLStats.recordFizzHandshake, recordFizzHandshakeCalls,
      TLSSLStats.perform_cons, TLSSLStats.perform_nil, TLSSLStats.add_timeseries_ts,
      TLSSLStats.add_timeseries_hist]

/-- C6: for every state, `recordPskType` with no value present returns the state
unchanged; with a value present it adds exactly 1 to the counter named after
that PSK type and leaves every other time series (the other four PSK counters
among them) and both histograms unchanged; distinct PSK types have distinct
counters. -/
theorem recordPskType_effect (s : TLSSLStats) :
    s.recordPskType none = s ∧
    (∀ p : PskType,
      (s.recordPskType (some p)).ts (pskTypeCounter p) = (s.ts (pskTypeCounter p)).add 1 ∧
      ((s.recordPskType (some p)).ts (pskTypeCounter p)).sum
        = (s.ts (pskTypeCounter p)).sum + 1 ∧
      (∀ m, m ≠ pskTypeCounter p → (s.recordPskType (some p)).ts m = s.ts m) ∧
      (s.recordPskType (some p)).hist = s.hist) ∧
    (∀ p q : PskType, p ≠ q → pskTypeCounter p ≠ pskTypeCounter q) ∧
    pskTypeCounter .NotSupported = .fizzPskTypeNotSupported_ ∧
    pskTypeCounter .NotAttempted = .fizzPskTypeNotAttempted_ ∧
    pskTypeCounter .Rejected = .fizzPskTypeRejected_ ∧
    pskTypeCounter .External = .fizzPskTypeExternal_ ∧
    pskTypeCounter .Resumption = .fizzPskTypeResumption_ := by
  refine ⟨rfl, ?_, ?_, rfl, rfl, rfl, rfl, rfl⟩
  · intro p
    cases p <;>
      simp +contextual [TLSSLStats.recordPskType, recordPskTypeCalls, pskTypeCounter,
        TLSSLStats.perform_cons, TLSSLStats.perform_nil, TLSSLStats.add_timeseries_ts,
        TLSSLStats.add_timeseries_hist, TLTimeseries.add_sum]
  · intro p q
    cases p <;> cases q <;> simp [pskTypeCounter]

/-! ## Accept latency -/

/-- C7: `recordSSLAcceptLatency` is a total function of the state and the
latency; for a negative latency the sample is dropped and the state is returned
unchanged, and for a latency of zero or more the accept-latency histogram takes
the sample (count +1, sum +latency). -/
theorem recordSSLAcceptLatency_effect (s : TLSSLStats) (latency : Int) :
    (latency < 0 → s.recordSSLAcceptLatency latency = s) ∧
    (0 ≤ latency →
      (s.recordSSLAcceptLatency latency).hist .sslAcceptLatency_
        = (s.hist .sslAcceptLatency_).add latency ∧
      ((s.recordSSLAcceptLatency latency).hist .sslAcceptLatency_).count
        = (s.hist .sslAcceptLatency_).count + 1 ∧
      ((s.recordSSLAcceptLatency latency).hist .sslAcceptLatency_).sum
        = (s.hist .sslAcceptLatency_).sum + latency ∧
      (s.recordSSLAcceptLatency latency).hist .replayCacheDuration_
        = s.hist .replayCacheDuration_ ∧
      (s.recordSSLAcceptLatency latency).ts .sslAcceptLatencyTS_
        = (s.ts .sslAcceptLatencyTS_).add latency ∧
      (∀ m, m ≠ TimeseriesId.sslAcceptLatencyTS_ →
        (s.recordSSLAcceptLatency latency).ts m = s.ts m)) := by
  constructor
  · intro h
    have h' : ¬ latency ≥ 0 := by omega
    simp [TLSSLStats.recordSSLAcceptLatency, recordSSLAcceptLatencyCalls, h',
      TLSSLStats.perform_nil]
  · intro h
    simp +contextual [TLSSLStats.recordSSLAcceptLatency, recordSSLAcceptLatencyCalls, h,
      TLSSLStats.perform_cons, TLSSLStats.perform_nil, TLSSLStats.add_timeseries_hist,
      TLSSLStats.add_timeseries_ts, TLSSLStats.add_histogram_ts,
      TLSSLStats.add_histogram_hist, TLHistogram.hist_add_sum, TLHistogram.hist_add_count]

/-- Witness of the accept-latency theorem: from the freshly constructed state,
latency -5 leaves the state as it was, and latency 0 is recorded as one
histogram sample, in the first bucket. -/
theorem recordSSLAcceptLatency_effect_witness :
    (TLSSLStats.create "edge").recordSSLAcceptLatency (-5) = TLSSLStats.create "edge" ∧
    (((TLSSLStats.create "edge").recordSSLAcceptLatency 0).hist .sslAcceptLatency_).count
      = 1 ∧
    (((TLSSLStats.create "edge").recordSSLAcceptLatency 0).hist .sslAcceptLatency_).buckets.head?
      = some 1 :=
  ⟨(recordSSLAcceptLatency_effect (TLSSLStats.create "edge") (-5)).1 (by decide),
   ((recordSSLAcceptLatency_effect (TLSSLStats.create "edge") 0).2 (by decide)).2.1,
   by
    rw [((recordSSLAcceptLatency_effect (TLSSLStats.create "edge") 0).2 (by decide)).1]
    decide⟩


/-! ## Upstream connections and ticket rotation -/

/-- C8: for every state and every flag, `recordSSLUpstreamConnection(handshake)`
adds exactly 1 to exactly one of sslUpstreamHandshakes (handshake true) and
sslUpstreamResumes (handshake false), and
`recordSSLUpstreamConnectionError(verifyError)` adds exactly 1 to exactly one of
sslUpstreamVerifyErrors (verifyError true) and sslUpstreamErrors (verifyError
false); the sibling counter, every other time series and both histograms are
unchanged, so a verify error is not counted in sslUpstreamErrors. -/
theorem recordSSLUpstream_exactly_one (s : TLSSLStats) (flag : Bool) :
    (∃ target : TimeseriesId,
      target = (if flag then TimeseriesId.sslUpstreamHandshakes_
                else TimeseriesId.sslUpstreamResumes_) ∧
      (s.recordSSLUpstreamConnection flag).ts target = (s.ts target).add 1 ∧
      ((s.recordSSLUpstreamConnection flag).ts target).sum = (s.ts target).sum + 1 ∧
      (∀ m, m ≠ target → (s.recordSSLUpstreamConnection flag).ts m = s.ts m) ∧
      (s.recordSSLUpstreamConnection flag).hist = s.hist) ∧
    (∃ target : TimeseriesId,
      target = (if flag then TimeseriesId.sslUpstreamVerifyErrors_
                else TimeseriesId.sslUpstreamErrors_) ∧
      (s.recordSSLUpstreamConnectionError flag).ts target = (s.ts target).add 1 ∧
      ((s.recordSSLUpstreamConnectionError flag).ts target).sum = (s.ts target).sum + 1 ∧
      (∀ m, m ≠ target → (s.recordSSLUpstreamConnectionError flag).ts m = s.ts m) ∧
      (s.recordSSLUpstreamConnectionError flag).hist = s.hist) ∧
    (s.recordSSLUpstreamConnectionError true).ts .sslUpstreamErrors_
      = s.ts .sslUpstreamErrors_ := by
  refine ⟨⟨_, rfl, ?_⟩, ⟨_, rfl, ?_⟩, ?_⟩
  · cases flag <;>
      simp +contextual [TLSSLStats.recordSSLUpstreamConnection,
        recordSSLUpstreamConnectionCalls,
        TLSSLStats.perform_cons, TLSSLStats.perform_nil, TLSSLStats.add_timeseries_ts,
        TLSSLStats.add_timeseries_hist, TLTimeseries.add_sum]
  · cases flag <;>
      simp +contextual [TLSSLStats.recordSSLUpstreamConnectionError,
        recordSSLUpstreamConnectionErrorCalls,
        TLSSLStats.perform_cons, TLSSLStats.perform_nil, TLSSLStats.add_timeseries_ts,
        TLSSLStats.add_timeseries_hist, TLTimeseries.add_sum]
  · simp [TLSSLStats.recordSSLUpstreamConnectionError,
      recordSSLUpstreamConnectionErrorCalls,
      TLSSLStats.perform_cons, TLSSLStats.perform_nil, TLSSLStats.add_timeseries_ts]

/-- C9: for every state, `recordTLSTicketRotation(valid)` returns the state
unchanged when valid is true and adds 1 to tlsTicketInvalidRotation when valid
is false; in both cases every other time series and both histograms are
unchanged. -/
theorem recordTLSTicketRotation_effect (s : TLSSLStats) (valid : Bool) :
    s.recordTLSTicketRotation true = s ∧
    (s.recordTLSTicketRotation false).ts .tlsTicketInvalidRotation_
      = (s.ts .tlsTicketInvalidRotation_).add 1 ∧
    ((s.recordTLSTicketRotation false).ts .tlsTicketInvalidRotation_).sum
      = (s.ts .tlsTicketInvalidRotation_).sum + 1 ∧
    (∀ m, m ≠ TimeseriesId.tlsTicketInvalidRotation_ →
      (s.recordTLSTicketRotation valid).ts m = s.ts m) ∧
    (s.recordTLSTicketRotation valid).hist = s.hist := by
  refine ⟨rfl, ?_⟩
  cases valid <;>
    simp +contextual [TLSSLStats.recordTLSTicketRotation, recordTLSTicketRotationCalls,
      TLSSLStats.perform_cons, TLSSLStats.perform_nil, TLSSLStats.add_timeseries_ts,
      TLSSLStats.add_timeseries_hist, TLTimeseries.add_sum]


/-! ## Sequences of ticket events -/

theorem TLSSLStats.recordTLSTickets_cons (s : TLSSLStats) (c : Bool × Bool)
    (cs : List (Bool × Bool)) :
    s.recordTLSTickets (c :: cs) = (s.recordTLSTicket c.1 c.2).recordTLSTickets cs := rfl

/-- After any sequence of `recordTLSTicket` calls from any state, each of the
three ticket counters has grown by the number of calls of its kind. -/
theorem TLSSLStats.recordTLSTickets_sums (s : TLSSLStats) (calls : List (Bool × Bool)) :
    ((s.recordTLSTickets calls).ts .tlsTicketNew_).sum
      = (s.ts .tlsTicketNew_).sum + calls.countP (fun c => c.1) ∧
    ((s.recordTLSTickets calls).ts .tlsTicketHit_).sum
      = (s.ts .tlsTicketHit_).sum + calls.countP (fun c => !c.1 && c.2) ∧
    ((s.recordTLSTickets calls).ts .tlsTicketMiss_).sum
      = (s.ts .tlsTicketMiss_).sum + calls.countP (fun c => !c.1 && !c.2) := by
  induction calls generalizing s with
  | nil => simp [TLSSLStats.recordTLSTickets]
  | cons c cs ih =>
    obtain ⟨a, b⟩ := c
    obtain ⟨h1, h2, h3⟩ := ih (s.recordTLSTicket a b)
    rw [TLSSLStats.recordTLSTickets_cons, h1, h2, h3]
    cases a <;> cases b <;>
      simp [List.countP_cons, TLSSLStats.recordTLSTicket, recordTLSTicketCalls,
        TLSSLStats.perform_cons, TLSSLStats.perform_nil, TLSSLStats.add_timeseries_ts,
        TLTimeseries.add_sum] <;>
      omega

/-- The three kinds of ticket call partition every sequence of calls. -/
theorem ticket_kinds_partition (calls : List (Bool × Bool)) :
    calls.countP (fun c => c.1) + calls.countP (fun c => !c.1 && c.2)
      + calls.countP (fun c => !c.1 && !c.2) = calls.length := by
  induction calls with
  | nil => rfl
  | cons c cs ih =>
    obtain ⟨a, b⟩ := c
    cases a <;> cases b <;> simp [List.countP_cons] <;> omega

/-- C10: starting from the freshly constructed (all-zero) state, after any
finite sequence of `recordTLSTicket` calls tlsTicketNew equals the number of
calls with ticketNew set, tlsTicketHit the number of calls with ticketNew clear
and ticketHit set, tlsTicketMiss the number of calls with both clear, and the
three add up to the number of calls; any ordering of three new, two hit and one
miss gives new = 3, hit = 2, miss = 1. -/
theorem recordTLSTickets_counts (pfx : String) (calls : List (Bool × Bool)) :
    (((TLSSLStats.create pfx).recordTLSTickets calls).ts .tlsTicketNew_).sum
      = calls.countP (fun c => c.1) ∧
    (((TLSSLStats.create pfx).recordTLSTickets calls).ts .tlsTicketHit_).sum
      = calls.countP (fun c => !c.1 && c.2) ∧
    (((TLSSLStats.create pfx).recordTLSTickets calls).ts .tlsTicketMiss_).sum
      = calls.countP (fun c => !c.1 && !c.2) ∧
    (((TLSSLStats.create pfx).recordTLSTickets calls).ts .tlsTicketNew_).sum
      + (((TLSSLStats.create pfx).recordTLSTickets calls).ts .tlsTicketHit_).sum
      + (((TLSSLStats.create pfx).recordTLSTickets calls).ts .tlsTicketMiss_).sum
      = calls.length ∧
    (calls.Perm ticketScenario →
      (((TLSSLStats.create pfx).recordTLSTickets calls).ts .tlsTicketNew_).sum = 3 ∧
      (((TLSSLStats.create pfx).recordTLSTickets calls).ts .tlsTicketHit_).sum = 2 ∧
      (((TLSSLStats.create pfx).recordTLSTickets calls).ts .tlsTicketMiss_).sum = 1) := by
  obtain ⟨h1, h2, h3⟩ := (TLSSLStats.create pfx).recordTLSTickets_sums calls
  have z1 : ((TLSSLStats.create pfx).ts .tlsTicketNew_).sum = 0 := rfl
  have z2 : ((TLSSLStats.create pfx).ts .tlsTicketHit_).sum = 0 := rfl
  have z3 : ((TLSSLStats.create pfx).ts .tlsTicketMiss_).sum = 0 := rfl
  rw [z1, zero_add] at h1
  rw [z2, zero_add] at h2
  rw [z3, zero_add] at h3
  refine ⟨h1, h2, h3, ?_, ?_⟩
  · rw [h1, h2, h3]
    exact_mod_cast ticket_kinds_partition calls
  · intro hp
    rw [h1, h2, h3, hp.countP_eq, hp.countP_eq, hp.countP_eq]
    decide

/-- Witness of the ticket-count theorem: the scenario recorded in a shuffled
order (miss, new, hit, new, hit, new) gives new = 3, hit = 2, miss = 1. -/
theorem recordTLSTickets_counts_witness :
    (((TLSSLStats.create "vip").recordTLSTickets
        [(false, false), (true, false), (false, true), (true, false), (false, true),
         (true, false)]).ts .tlsTicketNew_).sum = 3 ∧
    (((TLSSLStats.create "vip").recordTLSTickets
        [(false, false), (true, false), (false, true), (true, false), (false, true),
         (true, false)]).ts .tlsTicketHit_).sum = 2 ∧
    (((TLSSLStats.create "vip").recordTLSTickets
        [(false, false), (true, false), (false, true), (true, false), (false, true),
         (true, false)]).ts .tlsTicketMiss_).sum = 1 :=
  (recordTLSTickets_counts "vip"
    [(false, false), (true, false), (false, true), (true, false), (false, true),
     (true, false)]).2.2.2.2 (by decide)


/-! ## The constructed state -/

theorem TLSSLStats.create_ts_sum (pfx : String) (m : TimeseriesId) :
    ((TLSSLStats.create pfx).ts m).sum = 0 := by
  cases m <;> rfl

theorem TLSSLStats.create_ts_count (pfx : String) (m : TimeseriesId) :
    ((TLSSLStats.create pfx).ts m).count = 0 := by
  cases m <;> rfl

theorem TLSSLStats.create_hist_sum (pfx : String) (m : HistogramId) :
    ((TLSSLStats.create pfx).hist m).sum = 0 := by
  cases m <;> rfl

theorem TLSSLStats.create_hist_count (pfx : String) (m : HistogramId) :
    ((TLSSLStats.create pfx).hist m).count = 0 := by
  cases m <;> rfl

/-! ## Sequences of replay-cache completions -/

theorem TLSSLStats.recordAll_nil (s : TLSSLStats) : s.recordAll [] = s := rfl

theorem TLSSLStats.recordAll_cons (s : TLSSLStats) (e : Event) (es : List Event) :
    s.recordAll (e :: es) = (s.record e).recordAll es := rfl

/-- After any sequence of replay-cache completions from any state, the
replay-cache members have grown by the totals of the sequence. -/
theorem TLSSLStats.replayCompletions_totals (s : TLSSLStats) (calls : List (Nat × Bool)) :
    ((s.recordAll (replayCompletions calls)).ts .replayCacheNumRequests_).sum
      = (s.ts .replayCacheNumRequests_).sum + calls.length ∧
    ((s.recordAll (replayCompletions calls)).ts .replayCacheNumHits_).sum
      = (s.ts .replayCacheNumHits_).sum + calls.countP (fun c => c.2) ∧
    ((s.recordAll (replayCompletions calls)).ts .replayCacheNumHits_).count
      = (s.ts .replayCacheNumHits_).count + calls.length ∧
    ((s.recordAll (replayCompletions calls)).ts .replayCacheNumErrors_).sum
      = (s.ts .replayCacheNumErrors_).sum ∧
    ((s.recordAll (replayCompletions calls)).ts .replayCacheNumErrors_).count
      = (s.ts .replayCacheNumErrors_).count + calls.length ∧
    ((s.recordAll (replayCompletions calls)).hist .replayCacheDuration_).sum
      = (s.hist .replayCacheDuration_).sum + ((calls.map (fun c => c.1)).sum : Nat) ∧
    ((s.recordAll (replayCompletions calls)).hist .replayCacheDuration_).count
      = (s.hist .replayCacheDuration_).count + calls.length := by
  induction calls generalizing s with
  | nil => simp [replayCompletions, TLSSLStats.recordAll_nil]
  | cons c cs ih =>
    obtain ⟨d, b⟩ := c
    obtain ⟨h1, h2, h3, h4, h5, h6, h7⟩ :=
      ih (s.record (.recordReplayCacheRequestComplete d b))
    simp only [replayCompletions, List.map_cons, TLSSLStats.recordAll_cons] at h1 h2 h3 h4 h5 h6 h7 ⊢
    rw [h1, h2, h3, h4, h5, h6, h7]
    cases b <;>
      simp [List.countP_cons, TLSSLStats.record, Event.calls,
        recordReplayCacheRequestCompleteCalls,
        TLSSLStats.perform_cons, TLSSLStats.perform_nil, TLSSLStats.add_timeseries_ts,
        TLSSLStats.add_timeseries_hist, TLSSLStats.add_histogram_ts,
        TLSSLStats.add_histogram_hist, TLTimeseries.add_sum, TLTimeseries.add_count,
        TLHistogram.hist_add_sum, TLHistogram.hist_add_count] <;>
      omega

/-- C11: starting from the freshly constructed (all-zero) state, after any
non-empty sequence of n `recordReplayCacheRequestComplete(d, hit)` calls the
requests counter is n, the hits percentage is 100 * (number of calls with hit
set) / n, the errors percentage is 0 and the mean of the duration histogram is
(sum of the durations) / n. -/
theorem replayCompletions_read (pfx : String) (calls : List (Nat × Bool))
    (hne : calls ≠ []) :
    (((TLSSLStats.create pfx).recordAll (replayCompletions calls)).ts
        .replayCacheNumRequests_).sum = calls.length ∧
    (((TLSSLStats.create pfx).recordAll (replayCompletions calls)).ts
        .replayCacheNumHits_).percentage
      = 100 * (calls.countP (fun c => c.2) : ℚ) / (calls.length : ℚ) ∧
    (((TLSSLStats.create pfx).recordAll (replayCompletions calls)).ts
        .replayCacheNumErrors_).percentage = 0 ∧
    (((TLSSLStats.create pfx).recordAll (replayCompletions calls)).hist
        .replayCacheDuration_).mean
      = (((calls.map (fun c => c.1)).sum : Nat) : ℚ) / (calls.length : ℚ) := by
  obtain ⟨h1, h2, h3, h4, _, h6, h7⟩ :=
    (TLSSLStats.create pfx).replayCompletions_totals calls
  have z1 : ((TLSSLStats.create pfx).ts .replayCacheNumRequests_).sum = 0 := rfl
  have z2 : ((TLSSLStats.create pfx).ts .replayCacheNumHits_).sum = 0 := rfl
  have z3 : ((TLSSLStats.create pfx).ts .replayCacheNumHits_).count = 0 := rfl
  have z4 : ((TLSSLStats.create pfx).ts .replayCacheNumErrors_).sum = 0 := rfl
  have z6 : ((TLSSLStats.create pfx).hist .replayCacheDuration_).sum = 0 := rfl
  have z7 : ((TLSSLStats.create pfx).hist .replayCacheDuration_).count = 0 := rfl
  rw [z1, zero_add] at h1
  rw [z2, zero_add] at h2
  rw [z3, Nat.zero_add] at h3
  rw [z4] at h4
  rw [z6, zero_add] at h6
  rw [z7, Nat.zero_add] at h7
  have hpos : 0 < calls.length := List.length_pos.mpr hne
  have hmax : max calls.length 1 = calls.length := max_eq_left hpos
  refine ⟨h1, ?_, ?_, ?_⟩
  · simp only [TLTimeseries.percentage, h2, h3, hmax, Int.cast_natCast]
  · simp [TLTimeseries.percentage, h4]
  · have hc : calls.length ≠ 0 := by omega
    simp only [TLHistogram.mean, h6, h7, hc, if_false, Int.cast_natCast]

/-- Witness of the replay-cache read theorem: complete(10, hit) then
complete(20, miss) gives requests = 2, hits percentage 50, errors percentage 0
and histogram mean 15. -/
theorem replayCompletions_read_witness :
    (((TLSSLStats.create "vip").recordAll (replayCompletions replayScenario)).ts
        .replayCacheNumRequests_).sum = 2 ∧
    (((TLSSLStats.create "vip").recordAll (replayCompletions replayScenario)).ts
        .replayCacheNumHits_).percentage = 50 ∧
    (((TLSSLStats.create "vip").recordAll (replayCompletions replayScenario)).ts
        .replayCacheNumErrors_).percentage = 0 ∧
    (((TLSSLStats.create "vip").recordAll (replayCompletions replayScenario)).hist
        .replayCacheDuration_).mean = 15 := by
  obtain ⟨h1, h2, h3, h4⟩ := replayCompletions_read "vip" replayScenario (by decide)
  refine ⟨h1, ?_, h3, ?_⟩
  · rw [h2]; norm_num [replayScenario]
  · rw [h4]; norm_num [replayScenario]


/-! ## Percentage series -/

/-- Every sample a recorder call gives to one of the four percentage series is
0 or 1. -/
theorem Event.percentage_samples (e : Event) (m : TimeseriesId) (v : Int)
    (hm : m ∈ percentageSeries) (hc : AddCall.timeseries m v ∈ e.calls) : v = 0 ∨ v = 1 := by
  cases e
  all_goals try cases ‹Bool›
  all_goals try cases ‹Bool›
  all_goals try cases ‹Bool›
  all_goals try cases ‹Option PskType›
  all_goals try cases ‹PskType›
  all_goals
    simp [Event.calls, recordSSLAcceptLatencyCalls, recordTLSTicketCalls,
      recordSSLSessionCalls, recordSSLSessionRemoveCalls, recordSSLSessionFreeCalls,
      recordSSLSessionSetErrorCalls, recordSSLSessionGetErrorCalls,
      recordClientRenegotiationCalls, recordSSLClientCertificateMismatchCalls,
      recordTLSTicketRotationCalls, recordSSLUpstreamConnectionCalls,
      recordSSLUpstreamConnectionErrorCalls, recordReplayCacheRequestCompleteCalls,
      recordReplayCacheRequestErrorCalls, recordNewSSLHandshakeShedCalls,
      recordSSLHandshakeCalls, recordFizzHandshakeCalls,
      recordFizzHandshakeProtocolErrorCalls, recordTFOSuccessCalls, recordPskTypeCalls,
      percentageSeries] at hm hc
  all_goals try (rcases hc with hc | hc | hc | hc <;> simp_all)
  all_goals try simp_all


/-- A series whose hit sum lies between zero and its total keeps that property
under any `add` calls that give it only the samples 0 and 1. -/
theorem TLSSLStats.perform_unit_samples (s : TLSSLStats) (cs : List AddCall)
    (m : TimeseriesId)
    (hcs : ∀ v, AddCall.timeseries m v ∈ cs → v = 0 ∨ v = 1)
    (h0 : 0 ≤ (s.ts m).sum) (h1 : (s.ts m).sum ≤ (s.ts m).count) :
    0 ≤ ((s.perform cs).ts m).sum ∧ ((s.perform cs).ts m).sum ≤ ((s.perform cs).ts m).count := by
  induction cs generalizing s with
  | nil => exact ⟨h0, h1⟩
  | cons c cs ih =>
    rw [TLSSLStats.perform_cons]
    apply ih
    · intro v hv
      exact hcs v (List.mem_cons_of_mem _ hv)
    · cases c with
      | timeseries m' v =>
        rw [TLSSLStats.add_timeseries_ts]
        split
        · next heq =>
          subst heq
          rcases hcs v (List.mem_cons_self _ _) with hv | hv <;>
            simp [TLTimeseries.add_sum, hv] <;> omega
        · exact h0
      | histogram m' v => exact h0
    · cases c with
      | timeseries m' v =>
        rw [TLSSLStats.add_timeseries_ts]
        split
        · next heq =>
          subst heq
          rcases hcs v (List.mem_cons_self _ _) with hv | hv <;>
            simp [TLTimeseries.add_sum, TLTimeseries.add_count, hv] <;> omega
        · exact h1
      | histogram m' v => exact h1

/-- From any state in which a percentage series has its hit sum between zero
and its total, every sequence of recorder calls leads to such a state. -/
theorem TLSSLStats.recordAll_unit_samples (s : TLSSLStats) (es : List Event)
    (m : TimeseriesId) (hm : m ∈ percentageSeries)
    (h0 : 0 ≤ (s.ts m).sum) (h1 : (s.ts m).sum ≤ (s.ts m).count) :
    0 ≤ ((s.recordAll es).ts m).sum ∧
      ((s.recordAll es).ts m).sum ≤ ((s.recordAll es).ts m).count := by
  induction es generalizing s with
  | nil => exact ⟨h0, h1⟩
  | cons e es ih =>
    rw [TLSSLStats.recordAll_cons]
    obtain ⟨g0, g1⟩ := s.perform_unit_samples e.calls m
      (fun v hv => e.percentage_samples m v hm hv) h0 h1
    exact ih (s.record e) g0 g1

/-- The percentage of a series whose hit sum lies between zero and its total
lies between 0 and 100, and is `100 * hits / total` when the total is positive. -/
theorem TLTimeseries.percentage_bounds (t : TLTimeseries)
    (h0 : 0 ≤ t.sum) (h1 : t.sum ≤ t.count) :
    0 ≤ t.percentage ∧ t.percentage ≤ 100 ∧
      (0 < t.count → t.percentage = 100 * (t.sum : ℚ) / (t.count : ℚ)) := by
  have hpos : (0 : ℚ) < ((max t.count 1 : Nat) : ℚ) := by
    have : 0 < max t.count 1 := by omega
    exact_mod_cast this
  have hs0 : (0 : ℚ) ≤ (t.sum : ℚ) := by exact_mod_cast h0
  have hs1 : (t.sum : ℚ) ≤ ((max t.count 1 : Nat) : ℚ) := by
    have : t.sum ≤ ((max t.count 1 : Nat) : Int) := by omega
    exact_mod_cast this
  refine ⟨?_, ?_, ?_⟩
  · unfold TLTimeseries.percentage
    positivity
  · unfold TLTimeseries.percentage
    rw [div_le_iff₀ hpos]
    linarith
  · intro hc
    have hmax : max t.count 1 = t.count := max_eq_left hc
    simp only [TLTimeseries.percentage, hmax]

/-- C12: in every state reached from the freshly constructed (all-zero) state by
any sequence of recorder calls, each of the four percentage series
(replayCacheNumHits, replayCacheNumErrors, sslHandshakeErrors,
fizzHandshakeErrors), each constructed with the PERCENT export type, has been
given only the samples 0 and 1, its hit sum lies
between 0 and its total, its percentage lies between 0 and 100, and the
percentage is 100 * hits / total when the total is positive. -/
theorem percentage_series_invariant (pfx : String) (es : List Event) (m : TimeseriesId)
    (hm : m ∈ percentageSeries) :
    ExportType.PERCENT ∈ ((TLSSLStats.create pfx).ts m).exportTypes ∧
    (∀ e ∈ es, ∀ v, AddCall.timeseries m v ∈ e.calls → v = 0 ∨ v = 1) ∧
    0 ≤ (((TLSSLStats.create pfx).recordAll es).ts m).sum ∧
    (((TLSSLStats.create pfx).recordAll es).ts m).sum
      ≤ (((TLSSLStats.create pfx).recordAll es).ts m).count ∧
    0 ≤ (((TLSSLStats.create pfx).recordAll es).ts m).percentage ∧
    (((TLSSLStats.create pfx).recordAll es).ts m).percentage ≤ 100 ∧
    (0 < (((TLSSLStats.create pfx).recordAll es).ts m).count →
      (((TLSSLStats.create pfx).recordAll es).ts m).percentage
        = 100 * ((((TLSSLStats.create pfx).recordAll es).ts m).sum : ℚ)
          / ((((TLSSLStats.create pfx).recordAll es).ts m).count : ℚ)) := by
  have z0 : 0 ≤ ((TLSSLStats.create pfx).ts m).sum := by
    rw [TLSSLStats.create_ts_sum]
  have z1 : ((TLSSLStats.create pfx).ts m).sum ≤ ((TLSSLStats.create pfx).ts m).count := by
    rw [TLSSLStats.create_ts_sum, TLSSLStats.create_ts_count]
    rfl
  obtain ⟨g0, g1⟩ := (TLSSLStats.create pfx).recordAll_unit_samples es m hm z0 z1
  obtain ⟨p0, p1, p2⟩ := TLTimeseries.percentage_bounds _ g0 g1
  refine ⟨?_, fun e _ v hv => e.percentage_samples m v hm hv, g0, g1, p0, p1, p2⟩
  simp only [percentageSeries, List.mem_cons, List.mem_singleton, List.not_mem_nil,
    or_false] at hm
  rcases hm with rfl | rfl | rfl | rfl <;>
    exact List.mem_cons_of_mem _ (List.mem_cons_self _ _)

/-- Witness of the percentage invariant: one failed and two successful SSL
handshakes leave sslHandshakeErrors with hit sum 1 of total 3, a percentage
between 0 and 100. -/
theorem percentage_series_invariant_witness :
    0 ≤ (((TLSSLStats.create "vip").recordAll
        [.recordSSLHandshake false, .recordSSLHandshake true, .recordSSLHandshake true]).ts
        .sslHandshakeErrors_).percentage ∧
    (((TLSSLStats.create "vip").recordAll
        [.recordSSLHandshake false, .recordSSLHandshake true, .recordSSLHandshake true]).ts
        .sslHandshakeErrors_).percentage ≤ 100 ∧
    (((TLSSLStats.create "vip").recordAll
        [.recordSSLHandshake false, .recordSSLHandshake true, .recordSSLHandshake true]).ts
        .sslHandshakeErrors_).sum = 1 ∧
    (((TLSSLStats.create "vip").recordAll
        [.recordSSLHandshake false, .recordSSLHandshake true, .recordSSLHandshake true]).ts
        .sslHandshakeErrors_).count = 3 :=
  ⟨(percentage_series_invariant "vip"
      [.recordSSLHandshake false, .recordSSLHandshake true, .recordSSLHandshake true]
      .sslHandshakeErrors_ (by decide)).2.2.2.2.1,
   (percentage_series_invariant "vip"
      [.recordSSLHandshake false, .recordSSLHandshake true, .recordSSLHandshake true]
      .sslHandshakeErrors_ (by decide)).2.2.2.2.2.1,
   by decide, by decide⟩


/-! ## Handshake percentages -/

/-- After any sequence of recorder calls from any state, the handshake members
have grown by the numbers of handshake calls of each outcome. -/
theorem TLSSLStats.recordAll_handshakes (s : TLSSLStats) (es : List Event) :
    ((s.recordAll es).ts .sslHandshakeErrors_).count
      = (s.ts .sslHandshakeErrors_).count + es.countP Event.isSSLHandshake ∧
    ((s.recordAll es).ts .sslHandshakeSuccesses_).sum
      = (s.ts .sslHandshakeSuccesses_).sum + es.count (.recordSSLHandshake true) ∧
    ((s.recordAll es).ts .sslHandshakeErrors_).sum
      = (s.ts .sslHandshakeErrors_).sum + es.count (.recordSSLHandshake false) ∧
    ((s.recordAll es).ts .fizzHandshakeErrors_).count
      = (s.ts .fizzHandshakeErrors_).count + es.countP Event.isFizzHandshake ∧
    ((s.recordAll es).ts .fizzHandshakeSuccesses_).sum
      = (s.ts .fizzHandshakeSuccesses_).sum + es.count (.recordFizzHandshake true) ∧
    ((s.recordAll es).ts .fizzHandshakeErrors_).sum
      = (s.ts .fizzHandshakeErrors_).sum + es.count (.recordFizzHandshake false) := by
  induction es generalizing s with
  | nil => simp [TLSSLStats.recordAll_nil]
  | cons e es ih =>
    obtain ⟨h1, h2, h3, h4, h5, h6⟩ := ih (s.record e)
    rw [TLSSLStats.recordAll_cons, h1, h2, h3, h4, h5, h6]
    cases e
    all_goals try cases ‹Bool›
    all_goals try cases ‹Bool›
    all_goals try cases ‹Bool›
    all_goals try cases ‹Option PskType›
    all_goals try cases ‹PskType›
    all_goals
      simp [List.countP_cons, List.count_cons, Event.isSSLHandshake, Event.isFizzHandshake,
        TLSSLStats.record, Event.calls, recordSSLAcceptLatencyCalls, recordTLSTicketCalls,
        recordSSLSessionCalls, recordSSLSessionRemoveCalls, recordSSLSessionFreeCalls,
        recordSSLSessionSetErrorCalls, recordSSLSessionGetErrorCalls,
        recordClientRenegotiationCalls, recordSSLClientCertificateMismatchCalls,
        recordTLSTicketRotationCalls, recordSSLUpstreamConnectionCalls,
        recordSSLUpstreamConnectionErrorCalls, recordReplayCacheRequestCompleteCalls,
        recordReplayCacheRequestErrorCalls, recordNewSSLHandshakeShedCalls,
        recordSSLHandshakeCalls, recordFizzHandshakeCalls,
        recordFizzHandshakeProtocolErrorCalls, recordTFOSuccessCalls, recordPskTypeCalls,
        TLSSLStats.perform_cons, TLSSLStats.perform_nil, TLSSLStats.add_timeseries_ts,
        TLSSLStats.add_histogram_ts, TLTimeseries.add_sum, TLTimeseries.add_count]
    all_goals try (split <;> simp [TLSSLStats.perform_cons, TLSSLStats.perform_nil,
      TLSSLStats.add_timeseries_ts, TLSSLStats.add_histogram_ts])
    all_goals try omega


/-- Every handshake call is either a successful or a failed one. -/
theorem handshake_calls_split (es : List Event) :
    es.countP Event.isSSLHandshake
      = es.count (.recordSSLHandshake true) + es.count (.recordSSLHandshake false) ∧
    es.countP Event.isFizzHandshake
      = es.count (.recordFizzHandshake true) + es.count (.recordFizzHandshake false) := by
  induction es with
  | nil => simp
  | cons e es ih =>
    obtain ⟨h1, h2⟩ := ih
    cases e
    all_goals try cases ‹Bool›
    all_goals
      simp [List.countP_cons, List.count_cons, Event.isSSLHandshake, Event.isFizzHandshake,
        h1, h2]
    all_goals try omega

/-- C13: in every state reached from the freshly constructed (all-zero) state by
any sequence of recorder calls, the total of sslHandshakeErrors equals
sslHandshakeSuccesses plus the error sum of sslHandshakeErrors and equals the
number of `recordSSLHandshake` calls made (successes being the calls with
success set, the error sum the calls with it clear), so that the percentage is
100 * failures / (successes + failures) once a handshake was recorded; the same
holds for fizzHandshakeErrors, fizzHandshakeSuccesses and `recordFizzHandshake`. -/
theorem handshake_percentage_over_attempts (pfx : String) (es : List Event) :
    (((((TLSSLStats.create pfx).recordAll es).ts .sslHandshakeErrors_).count : Int)
        = (((TLSSLStats.create pfx).recordAll es).ts .sslHandshakeSuccesses_).sum
          + (((TLSSLStats.create pfx).recordAll es).ts .sslHandshakeErrors_).sum ∧
      (((TLSSLStats.create pfx).recordAll es).ts .sslHandshakeErrors_).count
        = es.countP Event.isSSLHandshake ∧
      (((TLSSLStats.create pfx).recordAll es).ts .sslHandshakeSuccesses_).sum
        = es.count (.recordSSLHandshake true) ∧
      (((TLSSLStats.create pfx).recordAll es).ts .sslHandshakeErrors_).sum
        = es.count (.recordSSLHandshake false) ∧
      (0 < es.countP Event.isSSLHandshake →
        (((TLSSLStats.create pfx).recordAll es).ts .sslHandshakeErrors_).percentage
          = 100 * ((((TLSSLStats.create pfx).recordAll es).ts .sslHandshakeErrors_).sum : ℚ)
            / (((((TLSSLStats.create pfx).recordAll es).ts .sslHandshakeSuccesses_).sum : ℚ)
              + ((((TLSSLStats.create pfx).recordAll es).ts .sslHandshakeErrors_).sum : ℚ)))) ∧
    (((((TLSSLStats.create pfx).recordAll es).ts .fizzHandshakeErrors_).count : Int)
        = (((TLSSLStats.create pfx).recordAll es).ts .fizzHandshakeSuccesses_).sum
          + (((TLSSLStats.create pfx).recordAll es).ts .fizzHandshakeErrors_).sum ∧
      (((TLSSLStats.create pfx).recordAll es).ts .fizzHandshakeErrors_).count
        = es.countP Event.isFizzHandshake ∧
      (((TLSSLStats.create pfx).recordAll es).ts .fizzHandshakeSuccesses_).sum
        = es.count (.recordFizzHandshake true) ∧
      (((TLSSLStats.create pfx).recordAll es).ts .fizzHandshakeErrors_).sum
        = es.count (.recordFizzHandshake false) ∧
      (0 < es.countP Event.isFizzHandshake →
        (((TLSSLStats.create pfx).recordAll es).ts .fizzHandshakeErrors_).percentage
          = 100 * ((((TLSSLStats.create pfx).recordAll es).ts .fizzHandshakeErrors_).sum : ℚ)
            / (((((TLSSLStats.create pfx).recordAll es).ts .fizzHandshakeSuccesses_).sum : ℚ)
              + ((((TLSSLStats.create pfx).recordAll es).ts .fizzHandshakeErrors_).sum : ℚ)))) := by
  obtain ⟨h1, h2, h3, h4, h5, h6⟩ := (TLSSLStats.create pfx).recordAll_handshakes es
  obtain ⟨k1, k2⟩ := handshake_calls_split es
  simp only [TLSSLStats.create_ts_sum, TLSSLStats.create_ts_count, zero_add,
    Nat.zero_add] at h1 h2 h3 h4 h5 h6
  refine ⟨⟨?_, h1, h2, h3, ?_⟩, ⟨?_, h4, h5, h6, ?_⟩⟩
  · rw [h1, h2, h3, k1]; push_cast; rfl
  · intro hpos
    have hmax : max (es.countP Event.isSSLHandshake) 1 = es.countP Event.isSSLHandshake :=
      max_eq_left hpos
    simp only [TLTimeseries.percentage, h1, h2, h3, hmax]
    rw [k1]; push_cast; rfl
  · rw [h4, h5, h6, k2]; push_cast; rfl
  · intro hpos
    have hmax : max (es.countP Event.isFizzHandshake) 1 = es.countP Event.isFizzHandshake :=
      max_eq_left hpos
    simp only [TLTimeseries.percentage, h4, h5, h6, hmax]
    rw [k2]; push_cast; rfl

/-- Witness of the handshake percentage theorem: after one failed and three
successful SSL handshakes the error percentage is 25, the share of failures
among all four attempts. -/
theorem handshake_percentage_over_attempts_witness :
    (((TLSSLStats.create "vip").recordAll
        [.recordSSLHandshake true, .recordSSLHandshake false, .recordTFOSuccess,
         .recordSSLHandshake true, .recordSSLHandshake true]).ts
        .sslHandshakeErrors_).percentage = 25 := by
  rw [(handshake_percentage_over_attempts "vip"
        [.recordSSLHandshake true, .recordSSLHandshake false, .recordTFOSuccess,
         .recordSSLHandshake true, .recordSSLHandshake true]).1.2.2.2.2 (by decide)]
  have e1 : (((TLSSLStats.create "vip").recordAll
        [.recordSSLHandshake true, .recordSSLHandshake false, .recordTFOSuccess,
         .recordSSLHandshake true, .recordSSLHandshake true]).ts
        .sslHandshakeErrors_).sum = 1 := by decide
  have e2 : (((TLSSLStats.create "vip").recordAll
        [.recordSSLHandshake true, .recordSSLHandshake false, .recordTFOSuccess,
         .recordSSLHandshake true, .recordSSLHandshake true]).ts
        .sslHandshakeSuccesses_).sum = 3 := by decide
  rw [e1, e2]
  norm_num


/-! ## Number of `add` calls per recorder call -/

/-- C14, refuted as stated: `recordReplayCacheRequestComplete(10, true)` makes
four `add` calls and `recordTLSTicketRotation(true)` makes none, so neither makes
between one and three. -/
theorem add_call_count_counterexample :
    (Event.recordReplayCacheRequestComplete 10 true).calls.length = 4 ∧
    (Event.recordTLSTicketRotation true).calls.length = 0 ∧
    ¬ (1 ≤ (Event.recordReplayCacheRequestComplete 10 true).calls.length ∧
        (Event.recordReplayCacheRequestComplete 10 true).calls.length ≤ 3) ∧
    ¬ (1 ≤ (Event.recordTLSTicketRotation true).calls.length ∧
        (Event.recordTLSTicketRotation true).calls.length ≤ 3) := by
  decide

/-- C14, amended: a recorder call makes no `add` call when it is
`recordSSLAcceptLatency` with a negative latency, `recordTLSTicketRotation(true)`
or `recordPskType` with no value; it makes four when it is
`recordReplayCacheRequestComplete`; every other recorder call, for every
argument value, makes at least one and at most three. -/
theorem add_call_count (e : Event) :
    ((∃ l : Int, l < 0 ∧ e = .recordSSLAcceptLatency l) ∨ e = .recordTLSTicketRotation true ∨
        e = .recordPskType none → e.calls.length = 0) ∧
    ((∃ d hit, e = .recordReplayCacheRequestComplete d hit) → e.calls.length = 4) ∧
    (¬ (∃ l : Int, l < 0 ∧ e = .recordSSLAcceptLatency l) → e ≠ .recordTLSTicketRotation true →
        e ≠ .recordPskType none → ¬ (∃ d hit, e = .recordReplayCacheRequestComplete d hit) →
        1 ≤ e.calls.length ∧ e.calls.length ≤ 3) := by
  cases e with
  | recordSSLAcceptLatency l =>
    by_cases hl : l < 0
    · have hl' : ¬ l ≥ 0 := by omega
      simp [Event.calls, recordSSLAcceptLatencyCalls, hl, hl']
    · have hl' : l ≥ 0 := by omega
      simp [Event.calls, recordSSLAcceptLatencyCalls, hl, hl']
  | recordPskType p =>
    cases p with
    | none => simp [Event.calls, recordPskTypeCalls]
    | some v => cases v <;> simp [Event.calls, recordPskTypeCalls]
  | _ =>
    all_goals try cases ‹Bool›
    all_goals try cases ‹Bool›
    all_goals try cases ‹Bool›
    all_goals
      simp [Event.calls, recordTLSTicketCalls,
        recordSSLSessionCalls, recordSSLSessionRemoveCalls, recordSSLSessionFreeCalls,
        recordSSLSessionSetErrorCalls, recordSSLSessionGetErrorCalls,
        recordClientRenegotiationCalls, recordSSLClientCertificateMismatchCalls,
        recordTLSTicketRotationCalls, recordSSLUpstreamConnectionCalls,
        recordSSLUpstreamConnectionErrorCalls, recordReplayCacheRequestCompleteCalls,
        recordReplayCacheRequestErrorCalls, recordNewSSLHandshakeShedCalls,
        recordSSLHandshakeCalls, recordFizzHandshakeCalls,
        recordFizzHandshakeProtocolErrorCalls, recordTFOSuccessCalls]

/-- Witness of the amended call count: a latency of -1 makes no `add` call. -/
theorem add_call_count_witness : (Event.recordSSLAcceptLatency (-1)).calls.length = 0 :=
  (add_call_count (.recordSSLAcceptLatency (-1))).1 (Or.inl ⟨-1, by decide, rfl⟩)


/-! ## Metric names -/

theorem TLSSLStats.create_ts_name (pfx : String) (m : TimeseriesId) :
    ((TLSSLStats.create pfx).ts m).name = pfx ++ ((TLSSLStats.create "").ts m).name := by
  cases m <;> rfl

theorem TLSSLStats.create_hist_name (pfx : String) (m : HistogramId) :
    ((TLSSLStats.create pfx).hist m).name = pfx ++ ((TLSSLStats.create "").hist m).name := by
  cases m <;> rfl

/-- Two strings with a common front part are equal only if the rest is equal. -/
theorem string_append_cancel (p a b : String) (h : p ++ a = p ++ b) : a = b := by
  have hd := congrArg String.data h
  rw [String.data_append, String.data_append] at hd
  exact String.ext (List.append_cancel_left hd)

/-- The name suffixes of the time series members are pairwise distinct. -/
theorem ts_suffix_injective (m m' : TimeseriesId)
    (h : ((TLSSLStats.create "").ts m).name = ((TLSSLStats.create "").ts m').name) :
    m = m' := by
  cases m <;> cases m' <;> first | rfl | exact absurd h (by decide)


/-- A histogram and a time series have the same name suffix only when they are
the accept-latency histogram and the accept-latency time series. -/
theorem ts_hist_suffix (m : TimeseriesId) (h : HistogramId)
    (heq : ((TLSSLStats.create "").ts m).name = ((TLSSLStats.create "").hist h).name) :
    m = .sslAcceptLatencyTS_ ∧ h = .sslAcceptLatency_ := by
  cases m <;> cases h <;> first | exact ⟨rfl, rfl⟩ | exact absurd heq (by decide)

/-- C15, refuted as stated: for the prefix "vip" the accept-latency histogram
and the accept-latency time series, two metrics of different kinds, are both
named "vip_ssl_accept_lat". -/
theorem metric_names_counterexample :
    ((TLSSLStats.create "vip").hist .sslAcceptLatency_).name = "vip_ssl_accept_lat" ∧
    ((TLSSLStats.create "vip").ts .sslAcceptLatencyTS_).name = "vip_ssl_accept_lat" ∧
    ((TLSSLStats.create "vip").hist .sslAcceptLatency_).name
      = ((TLSSLStats.create "vip").ts .sslAcceptLatencyTS_).name := by
  decide

/-- C15, amended: for every prefix the names of the time series constructed by
`TLSSLStats(prefix)` are pairwise distinct and the names of the two histograms
are distinct; a time series and a histogram share a name only in one case, the
accept-latency time series and the accept-latency histogram, which are both
named prefix + "_ssl_accept_lat". -/
theorem metric_names (pfx : String) :
    (∀ m m' : TimeseriesId,
      ((TLSSLStats.create pfx).ts m).name = ((TLSSLStats.create pfx).ts m').name → m = m') ∧
    (∀ h h' : HistogramId,
      ((TLSSLStats.create pfx).hist h).name = ((TLSSLStats.create pfx).hist h').name →
      h = h') ∧
    (∀ (m : TimeseriesId) (h : HistogramId),
      ((TLSSLStats.create pfx).ts m).name = ((TLSSLStats.create pfx).hist h).name ↔
        (m = .sslAcceptLatencyTS_ ∧ h = .sslAcceptLatency_)) ∧
    ((TLSSLStats.create pfx).ts .sslAcceptLatencyTS_).name = pfx ++ "_ssl_accept_lat" ∧
    ((TLSSLStats.create pfx).hist .sslAcceptLatency_).name = pfx ++ "_ssl_accept_lat" := by
  refine ⟨?_, ?_, ?_, rfl, rfl⟩
  · intro m m' h
    rw [TLSSLStats.create_ts_name pfx m, TLSSLStats.create_ts_name pfx m'] at h
    exact ts_suffix_injective m m' (string_append_cancel _ _ _ h)
  · intro h h' heq
    rw [TLSSLStats.create_hist_name pfx h, TLSSLStats.create_hist_name pfx h'] at heq
    have := string_append_cancel _ _ _ heq
    cases h <;> cases h' <;> first | rfl | exact absurd this (by decide)
  · intro m h
    constructor
    · intro heq
      rw [TLSSLStats.create_ts_name pfx m, TLSSLStats.create_hist_name pfx h] at heq
      exact ts_hist_suffix m h (string_append_cancel _ _ _ heq)
    · rintro ⟨rfl, rfl⟩
      rfl

/-! ## Session removal and free -/

/-- C16: for every state, `recordSSLSessionRemove` adds exactly 1 to
sslSessionRemove, and for every freed count n (0 and 2^32 - 1 included)
`recordSSLSessionFree(n)` adds exactly n to sslSessionFree; each leaves every
other time series and both histograms unchanged. -/
theorem recordSSLSessionRemoveFree_effect (s : TLSSLStats) (freed : Nat) :
    (s.recordSSLSessionRemove.ts .sslSessionRemove_ = (s.ts .sslSessionRemove_).add 1 ∧
      (s.recordSSLSessionRemove.ts .sslSessionRemove_).sum
        = (s.ts .sslSessionRemove_).sum + 1 ∧
      (∀ m, m ≠ TimeseriesId.sslSessionRemove_ → s.recordSSLSessionRemove.ts m = s.ts m) ∧
      s.recordSSLSessionRemove.hist = s.hist) ∧
    ((s.recordSSLSessionFree freed).ts .sslSessionFree_
        = (s.ts .sslSessionFree_).add (freed : Int) ∧
      ((s.recordSSLSessionFree freed).ts .sslSessionFree_).sum
        = (s.ts .sslSessionFree_).sum + (freed : Int) ∧
      (∀ m, m ≠ TimeseriesId.sslSessionFree_ →
        (s.recordSSLSessionFree freed).ts m = s.ts m) ∧
      (s.recordSSLSessionFree freed).hist = s.hist) ∧
    ((s.recordSSLSessionFree 0).ts .sslSessionFree_).sum = (s.ts .sslSessionFree_).sum ∧
    ((s.recordSSLSessionFree (2 ^ 32 - 1)).ts .sslSessionFree_).sum
      = (s.ts .sslSessionFree_).sum + 4294967295 := by
  simp +contextual [TLSSLStats.recordSSLSessionRemove, recordSSLSessionRemoveCalls,
    TLSSLStats.recordSSLSessionFree, recordSSLSessionFreeCalls,
    TLSSLStats.perform_cons, TLSSLStats.perform_nil, TLSSLStats.add_timeseries_ts,
    TLSSLStats.add_timeseries_hist, TLTimeseries.add_sum]


/-! ## Recorder calls commute -/

theorem bumpBucket_comm (l : List Nat) (i j : Nat) :
    bumpBucket (bumpBucket l i) j = bumpBucket (bumpBucket l j) i := by
  induction l generalizing i j with
  | nil => rfl
  | cons b bs ih =>
    cases i <;> cases j <;> simp [bumpBucket]
    exact ih _ _

theorem TLTimeseries.ts_add_comm (t : TLTimeseries) (v w : Int) :
    (t.add v).add w = (t.add w).add v := by
  simp [TLTimeseries.add, add_assoc, add_comm v w]

theorem TLHistogram.hist_add_comm (h : TLHistogram) (v w : Int) :
    (h.add v).add w = (h.add w).add v := by
  by_cases hv1 : v < h.min <;> by_cases hv2 : v ≥ h.max <;>
    by_cases hw1 : w < h.min <;> by_cases hw2 : w ≥ h.max <;>
    simp [TLHistogram.add, hv1, hv2, hw1, hw2, add_assoc, add_comm v w,
      bumpBucket_comm h.buckets ((v - h.min) / h.bucketWidth).toNat]

theorem TLSSLStats.ext_members (s t : TLSSLStats) (hts : ∀ m, s.ts m = t.ts m)
    (hhist : ∀ m, s.hist m = t.hist m) : s = t := by
  cases s
  cases t
  simp only [TLSSLStats.mk.injEq]
  exact ⟨funext hts, funext hhist⟩

/-- Two `add` calls have the same effect in either order. -/
theorem TLSSLStats.add_add_comm (s : TLSSLStats) (c d : AddCall) :
    (s.add c).add d = (s.add d).add c := by
  apply TLSSLStats.ext_members
  · intro m
    cases c <;> cases d <;>
      simp only [TLSSLStats.add_timeseries_ts, TLSSLStats.add_histogram_ts,
        TLSSLStats.add_timeseries_hist, TLSSLStats.add_histogram_hist]
    rename_i a v b w
    by_cases hab : a = b
    · subst hab
      by_cases hm : m = a
      · simp [hm, TLTimeseries.ts_add_comm]
      · simp [hm]
    · by_cases hma : m = a
      · subst hma
        simp [hab, Ne.symm hab]
      · by_cases hmb : m = b
        · subst hmb
          simp [hab, Ne.symm hab]
        · simp [hma, hmb]
  · intro m
    cases c <;> cases d <;>
      simp only [TLSSLStats.add_timeseries_ts, TLSSLStats.add_histogram_ts,
        TLSSLStats.add_timeseries_hist, TLSSLStats.add_histogram_hist]
    rename_i a v b w
    by_cases hab : a = b
    · subst hab
      by_cases hm : m = a
      · simp [hm, TLHistogram.hist_add_comm]
      · simp [hm]
    · by_cases hma : m = a
      · subst hma
        simp [hab, Ne.symm hab]
      · by_cases hmb : m = b
        · subst hmb
          simp [hab, Ne.symm hab]
        · simp [hma, hmb]


theorem TLSSLStats.perform_append (s : TLSSLStats) (cs ds : List AddCall) :
    s.perform (cs ++ ds) = (s.perform cs).perform ds := by
  simp [TLSSLStats.perform, List.foldl_append]

/-- Running a sequence of `add` calls in any order gives the same state. -/
theorem TLSSLStats.perform_perm (s : TLSSLStats) (cs ds : List AddCall)
    (hp : cs.Perm ds) : s.perform cs = s.perform ds := by
  induction hp generalizing s with
  | nil => rfl
  | cons c _ ih => exact ih (s.add c)
  | swap c d l =>
    simp only [TLSSLStats.perform_cons]
    rw [TLSSLStats.add_add_comm]
  | trans _ _ ih1 ih2 => exact (ih1 s).trans (ih2 s)

/-- Two recorder calls have the same effect in either order. -/
theorem TLSSLStats.record_record_comm (s : TLSSLStats) (e f : Event) :
    (s.record e).record f = (s.record f).record e := by
  simp only [TLSSLStats.record, ← TLSSLStats.perform_append]
  exact s.perform_perm _ _ List.perm_append_comm

/-- C18: recorder calls commute: for every starting state and every two finite
sequences of recorder calls (with their arguments) that are permutations of
each other, both sequences lead to the same state, hence to the same value of
every counter sum, every percentage series (hits and total) and every histogram
sample count and sum. -/
theorem recordAll_perm (s : TLSSLStats) (es fs : List Event) (hp : es.Perm fs) :
    s.recordAll es = s.recordAll fs ∧
    (∀ m, ((s.recordAll es).ts m).sum = ((s.recordAll fs).ts m).sum ∧
      ((s.recordAll es).ts m).count = ((s.recordAll fs).ts m).count) ∧
    (∀ h, ((s.recordAll es).hist h).count = ((s.recordAll fs).hist h).count ∧
      ((s.recordAll es).hist h).sum = ((s.recordAll fs).hist h).sum) := by
  have key : s.recordAll es = s.recordAll fs := by
    induction hp generalizing s with
    | nil => rfl
    | cons e _ ih => exact ih (s.record e)
    | swap e f l =>
      simp only [TLSSLStats.recordAll_cons]
      rw [TLSSLStats.record_record_comm]
    | trans _ _ ih1 ih2 => exact (ih1 s).trans (ih2 s)
  rw [key]
  exact ⟨rfl, fun _ => ⟨rfl, rfl⟩, fun _ => ⟨rfl, rfl⟩⟩

/-- Witness of the commutation theorem: a handshake, a replay-cache completion
and an accept latency recorded in two different orders give the same state. -/
theorem recordAll_perm_witness :
    (TLSSLStats.create "vip").recordAll
        [.recordSSLHandshake false, .recordReplayCacheRequestComplete 10 true,
         .recordSSLAcceptLatency 7]
      = (TLSSLStats.create "vip").recordAll
        [.recordSSLAcceptLatency 7, .recordSSLHandshake false,
         .recordReplayCacheRequestComplete 10 true] :=
  (recordAll_perm (TLSSLStats.create "vip")
    [.recordSSLHandshake false, .recordReplayCacheRequestComplete 10 true,
     .recordSSLAcceptLatency 7]
    [.recordSSLAcceptLatency 7, .recordSSLHandshake false,
     .recordReplayCacheRequestComplete 10 true] (by decide)).1


/-! ## Consistency of the replay-cache metrics -/

/-- After any sequence of recorder calls from any state, the replay-cache
members have grown by the numbers of completed and failed requests. -/
theorem TLSSLStats.recordAll_replay (s : TLSSLStats) (es : List Event) :
    ((s.recordAll es).ts .replayCacheNumRequests_).sum
      = (s.ts .replayCacheNumRequests_).sum + es.countP Event.isReplayComplete
        + es.count .recordReplayCacheRequestError ∧
    ((s.recordAll es).ts .replayCacheNumErrors_).count
      = (s.ts .replayCacheNumErrors_).count + es.countP Event.isReplayComplete
        + es.count .recordReplayCacheRequestError ∧
    ((s.recordAll es).ts .replayCacheNumErrors_).sum
      = (s.ts .replayCacheNumErrors_).sum + es.count .recordReplayCacheRequestError ∧
    ((s.recordAll es).ts .replayCacheNumHits_).count
      = (s.ts .replayCacheNumHits_).count + es.countP Event.isReplayComplete ∧
    ((s.recordAll es).hist .replayCacheDuration_).count
      = (s.hist .replayCacheDuration_).count + es.countP Event.isReplayComplete := by
  induction es generalizing s with
  | nil => simp [TLSSLStats.recordAll_nil]
  | cons e es ih =>
    obtain ⟨h1, h2, h3, h4, h5⟩ := ih (s.record e)
    rw [TLSSLStats.recordAll_cons, h1, h2, h3, h4, h5]
    cases e
    all_goals try cases ‹Bool›
    all_goals try cases ‹Bool›
    all_goals try cases ‹Bool›
    all_goals try cases ‹Option PskType›
    all_goals try cases ‹PskType›
    all_goals
      simp [List.countP_cons, List.count_cons, Event.isReplayComplete,
        TLSSLStats.record, Event.calls, recordSSLAcceptLatencyCalls, recordTLSTicketCalls,
        recordSSLSessionCalls, recordSSLSessionRemoveCalls, recordSSLSessionFreeCalls,
        recordSSLSessionSetErrorCalls, recordSSLSessionGetErrorCalls,
        recordClientRenegotiationCalls, recordSSLClientCertificateMismatchCalls,
        recordTLSTicketRotationCalls, recordSSLUpstreamConnectionCalls,
        recordSSLUpstreamConnectionErrorCalls, recordReplayCacheRequestCompleteCalls,
        recordReplayCacheRequestErrorCalls, recordNewSSLHandshakeShedCalls,
        recordSSLHandshakeCalls, recordFizzHandshakeCalls,
        recordFizzHandshakeProtocolErrorCalls, recordTFOSuccessCalls, recordPskTypeCalls,
        TLSSLStats.perform_cons, TLSSLStats.perform_nil, TLSSLStats.add_timeseries_ts,
        TLSSLStats.add_histogram_ts, TLSSLStats.add_timeseries_hist,
        TLSSLStats.add_histogram_hist, TLTimeseries.add_sum, TLTimeseries.add_count,
        TLHistogram.hist_add_count]
    all_goals try (split <;> simp [TLSSLStats.perform_cons, TLSSLStats.perform_nil,
      TLSSLStats.add_timeseries_ts, TLSSLStats.add_histogram_ts,
      TLSSLStats.add_timeseries_hist, TLSSLStats.add_histogram_hist])
    all_goals try omega

/-- C19: in every state reached from the freshly constructed (all-zero) state by
any sequence of recorder calls, the requests counter equals the total of the
errors series, and the total of the hits series equals the sample count of the
duration histogram, which equals requests minus the error sum of the errors
series: the hit percentage is taken over completed requests only. -/
theorem replay_cache_consistent (pfx : String) (es : List Event) :
    (((TLSSLStats.create pfx).recordAll es).ts .replayCacheNumRequests_).sum
      = ((((TLSSLStats.create pfx).recordAll es).ts .replayCacheNumErrors_).count : Int) ∧
    (((TLSSLStats.create pfx).recordAll es).ts .replayCacheNumHits_).count
      = (((TLSSLStats.create pfx).recordAll es).hist .replayCacheDuration_).count ∧
    ((((TLSSLStats.create pfx).recordAll es).hist .replayCacheDuration_).count : Int)
      = (((TLSSLStats.create pfx).recordAll es).ts .replayCacheNumRequests_).sum
        - (((TLSSLStats.create pfx).recordAll es).ts .replayCacheNumErrors_).sum ∧
    (((TLSSLStats.create pfx).recordAll es).ts .replayCacheNumHits_).count
      = es.countP Event.isReplayComplete ∧
    (((TLSSLStats.create pfx).recordAll es).ts .replayCacheNumErrors_).sum
      = es.count .recordReplayCacheRequestError := by
  obtain ⟨h1, h2, h3, h4, h5⟩ := (TLSSLStats.create pfx).recordAll_replay es
  simp only [TLSSLStats.create_ts_sum, TLSSLStats.create_ts_count,
    TLSSLStats.create_hist_count, zero_add, Nat.zero_add] at h1 h2 h3 h4 h5
  rw [h1, h2, h3, h4, h5]
  refine ⟨?_, rfl, ?_, rfl, rfl⟩
  · push_cast; rfl
  · ring

/-! ## The two accept-latency series -/

/-- After any sequence of recorder calls from any state, the accept-latency
histogram and the accept-latency time series have each grown by the
non-negative latencies recorded. -/
theorem TLSSLStats.recordAll_latency (s : TLSSLStats) (es : List Event) :
    ((s.recordAll es).hist .sslAcceptLatency_).count
      = (s.hist .sslAcceptLatency_).count + (acceptedLatencies es).length ∧
    ((s.recordAll es).hist .sslAcceptLatency_).sum
      = (s.hist .sslAcceptLatency_).sum + (acceptedLatencies es).sum ∧
    ((s.recordAll es).ts .sslAcceptLatencyTS_).count
      = (s.ts .sslAcceptLatencyTS_).count + (acceptedLatencies es).length ∧
    ((s.recordAll es).ts .sslAcceptLatencyTS_).sum
      = (s.ts .sslAcceptLatencyTS_).sum + (acceptedLatencies es).sum := by
  induction es generalizing s with
  | nil => simp [TLSSLStats.recordAll_nil, acceptedLatencies]
  | cons e es ih =>
    obtain ⟨h1, h2, h3, h4⟩ := ih (s.record e)
    rw [TLSSLStats.recordAll_cons, h1, h2, h3, h4]
    cases e with
    | recordSSLAcceptLatency l =>
      by_cases hl : 0 ≤ l
      · simp [acceptedLatencies, List.filterMap_cons, Event.acceptedLatency, hl,
          TLSSLStats.record, Event.calls, recordSSLAcceptLatencyCalls,
          TLSSLStats.perform_cons, TLSSLStats.perform_nil, TLSSLStats.add_timeseries_ts,
          TLSSLStats.add_histogram_ts, TLSSLStats.add_timeseries_hist,
          TLSSLStats.add_histogram_hist, TLTimeseries.add_sum, TLTimeseries.add_count,
          TLHistogram.hist_add_sum, TLHistogram.hist_add_count]
        omega
      · simp [acceptedLatencies, List.filterMap_cons, Event.acceptedLatency, hl,
          TLSSLStats.record, Event.calls, recordSSLAcceptLatencyCalls,
          TLSSLStats.perform_nil]
    | _ =>
      all_goals try cases ‹Bool›
      all_goals try cases ‹Bool›
      all_goals try cases ‹Bool›
      all_goals try cases ‹Option PskType›
      all_goals try cases ‹PskType›
      all_goals
        simp [acceptedLatencies, List.filterMap_cons, Event.acceptedLatency,
          TLSSLStats.record, Event.calls, recordTLSTicketCalls,
          recordSSLSessionCalls, recordSSLSessionRemoveCalls, recordSSLSessionFreeCalls,
          recordSSLSessionSetErrorCalls, recordSSLSessionGetErrorCalls,
          recordClientRenegotiationCalls, recordSSLClientCertificateMismatchCalls,
          recordTLSTicketRotationCalls, recordSSLUpstreamConnectionCalls,
          recordSSLUpstreamConnectionErrorCalls, recordReplayCacheRequestCompleteCalls,
          recordReplayCacheRequestErrorCalls, recordNewSSLHandshakeShedCalls,
          recordSSLHandshakeCalls, recordFizzHandshakeCalls,
          recordFizzHandshakeProtocolErrorCalls, recordTFOSuccessCalls, recordPskTypeCalls,
          TLSSLStats.perform_cons, TLSSLStats.perform_nil, TLSSLStats.add_timeseries_ts,
          TLSSLStats.add_histogram_ts, TLSSLStats.add_timeseries_hist,
          TLSSLStats.add_histogram_hist]

/-- C20: in every state reached from the freshly constructed (all-zero) state by
any sequence of recorder calls, the accept-latency histogram and the
accept-latency time series have the same sample count and the same sum, and
both equal the count and the sum of the non-negative latencies passed to
`recordSSLAcceptLatency`. -/
theorem accept_latency_in_step (pfx : String) (es : List Event) :
    (((TLSSLStats.create pfx).recordAll es).hist .sslAcceptLatency_).count
      = (((TLSSLStats.create pfx).recordAll es).ts .sslAcceptLatencyTS_).count ∧
    (((TLSSLStats.create pfx).recordAll es).hist .sslAcceptLatency_).sum
      = (((TLSSLStats.create pfx).recordAll es).ts .sslAcceptLatencyTS_).sum ∧
    (((TLSSLStats.create pfx).recordAll es).hist .sslAcceptLatency_).count
      = (acceptedLatencies es).length ∧
    (((TLSSLStats.create pfx).recordAll es).hist .sslAcceptLatency_).sum
      = (acceptedLatencies es).sum ∧
    (∀ l ∈ acceptedLatencies es, 0 ≤ l ∧ Event.recordSSLAcceptLatency l ∈ es) ∧
    (∀ l : Int, 0 ≤ l → Event.recordSSLAcceptLatency l ∈ es → l ∈ acceptedLatencies es) := by
  obtain ⟨h1, h2, h3, h4⟩ := (TLSSLStats.create pfx).recordAll_latency es
  simp only [TLSSLStats.create_ts_sum, TLSSLStats.create_ts_count,
    TLSSLStats.create_hist_sum, TLSSLStats.create_hist_count, zero_add,
    Nat.zero_add] at h1 h2 h3 h4
  rw [h1, h2, h3, h4]
  refine ⟨rfl, rfl, rfl, rfl, ?_, ?_⟩
  · intro l hl
    simp only [acceptedLatencies, List.mem_filterMap] at hl
    obtain ⟨e, he, hv⟩ := hl
    cases e <;> simp [Event.acceptedLatency] at hv
    obtain ⟨h0, rfl⟩ := hv
    exact ⟨h0, he⟩
  · intro l h0 hl
    simp only [acceptedLatencies, List.mem_filterMap]
    exact ⟨_, hl, by simp [Event.acceptedLatency, h0]⟩


end Proxygen
